import Mathlib

/-!
Verification of the pt.go-day.tbk employee-management backend.

Shallow embedding of the data-access layer (`src/server/storage.ts`), the
schema (`src/schema.ts`), the REST handlers (`src/unnamed/part_001`,
the Express routes file), and `calculateWorkingHours`
(`src/client/src/lib/utils.ts`).

Modelling conventions:
* JS timestamps (`Date`) are milliseconds since the epoch, `Int`.
  `setHours(0,0,0,0)` (start of the server-local calendar day) is modelled
  as flooring to a multiple of 86400000 ms, i.e. the server clock is taken
  to run at a fixed zero UTC offset with no DST transitions.
* JS `number` amounts (prices, totals) are idealised as rationals `ℚ`;
  the literal `0.11` of the sales handler is the rational `11/100`.
* Database row ids: `MemStorage` assigns ids from its own counters; the
  relational backend assigns ids from the serial sequences.  Both are
  modelled by per-table counters in a common `Store` state.
* `MemStorage` keeps each table in a JS `Map` keyed by id.  JS maps
  enumerate values in insertion order and ids are assigned in increasing
  order, so `Array.from(map.values())` is modelled as a `List` in
  insertion order.  `MemStorage`'s `saleItems : Map<saleId, SaleItem[]>`
  is modelled by the flat list of items in creation order (grouping is a
  bijection between the two representations: `get(saleId) || []` is the
  filter by `sale_id`, appending to a group is appending to the flat list).
* SQL `SELECT`s of the relational backend are modelled over the same row
  lists, rows in table (insertion) order; `INSERT .. RETURNING` appends and
  returns the new row; `UPDATE .. WHERE .. RETURNING` rewrites every
  matching row and returns the rewritten rows; the `UNIQUE` constraints of
  `src/schema.ts` (users.username, users.email, sales.invoice_number) make
  a violating `INSERT` fail.
* Sources of nondeterminism (the clock `now`, the `toISOString` date
  string, the `nanoid(6)` output) are passed as explicit parameters.
* JS `Array.prototype.sort` is a stable sort; it is modelled by the stable
  `List.insertionSort`.
-/

namespace PtGoDay

instance {ε α : Type} [DecidableEq ε] [DecidableEq α] : DecidableEq (Except ε α) :=
  fun x y =>
    match x, y with
    | .error a, .error b =>
      if h : a = b then .isTrue (congrArg Except.error h)
        else .isFalse (fun he => h (by injection he))
    | .ok a, .ok b =>
      if h : a = b then .isTrue (congrArg Except.ok h)
        else .isFalse (fun he => h (by injection he))
    | .error _, .ok _ => .isFalse (fun he => Except.noConfusion he)
    | .ok _, .error _ => .isFalse (fun he => Except.noConfusion he)

/-! ## Data model (src/schema.ts) -/

/-- Row of the `users` table. -/
structure User where
  id : Nat
  username : String
  password : String
  email : String
  role : String
  full_name : Option String
  avatar_url : Option String
  created_at : Int
deriving Repr, DecidableEq

/-- `InsertUser` (`insertUserSchema`): `users` minus `id`, `created_at`. -/
structure InsertUser where
  username : String
  password : String
  email : String
  role : String
  full_name : Option String := none
  avatar_url : Option String := none
deriving Repr, DecidableEq

/-- Row of the `attendance` table. -/
structure Attendance where
  id : Nat
  user_id : Nat
  check_in : Int
  check_out : Option Int
  note : Option String
  location : String
  created_at : Int
deriving Repr, DecidableEq

/-- `InsertAttendance`: `attendance` minus `id`, `created_at`. -/
structure InsertAttendance where
  user_id : Nat
  check_in : Int
  check_out : Option Int := none
  note : Option String := none
  location : String
deriving Repr, DecidableEq

/-- `Partial<InsertAttendance>`: every field optional; `some v` means the
field is present in the partial-update object with value `v`. -/
structure AttendancePatch where
  user_id : Option Nat := none
  check_in : Option Int := none
  check_out : Option (Option Int) := none
  note : Option (Option String) := none
  location : Option String := none
deriving Repr, DecidableEq

/-- Row of the `sales` table (`real` amounts as `ℚ`). -/
structure Sale where
  id : Nat
  invoice_number : String
  user_id : Nat
  customer_name : String
  sale_date : Int
  total_amount : ℚ
  tax_amount : ℚ
  discount_amount : ℚ
  payment_method : String
  notes : Option String
  status : String
  created_at : Int
deriving Repr, DecidableEq

/-- `InsertSale`: `sales` minus `id`, `created_at`. -/
structure InsertSale where
  invoice_number : String
  user_id : Nat
  customer_name : String
  sale_date : Int
  total_amount : ℚ
  tax_amount : ℚ
  discount_amount : ℚ
  payment_method : String
  notes : Option String := none
  status : String
deriving Repr, DecidableEq

/-- Row of the `sale_items` table. -/
structure SaleItem where
  id : Nat
  sale_id : Nat
  product_id : Nat
  quantity : Int
  unit_price : ℚ
  created_at : Int
deriving Repr, DecidableEq

/-- `InsertSaleItem`: `sale_items` minus `id`, `created_at`. -/
structure InsertSaleItem where
  sale_id : Nat
  product_id : Nat
  quantity : Int
  unit_price : ℚ
deriving Repr, DecidableEq

/-- Row of the `products` table. -/
structure Product where
  id : Nat
  name : String
  description : Option String
  price : ℚ
  category_id : Nat
  sku : String
  created_at : Int
deriving Repr, DecidableEq

/-- Row of the `product_categories` table. -/
structure ProductCategory where
  id : Nat
  name : String
  description : Option String
  created_at : Int
deriving Repr, DecidableEq

/-- Row of the `work_reports` table. -/
structure WorkReport where
  id : Nat
  user_id : Nat
  title : String
  report_type : String
  department : String
  tasks : String
  outcomes : String
  challenges : Option String
  next_steps : Option String
  status : String
  created_at : Int
deriving Repr, DecidableEq

/-- `InsertWorkReport`: `work_reports` minus `id`, `created_at`. -/
structure InsertWorkReport where
  user_id : Nat
  title : String
  report_type : String
  department : String
  tasks : String
  outcomes : String
  challenges : Option String := none
  next_steps : Option String := none
  status : String
deriving Repr, DecidableEq

/-- `Partial<InsertWorkReport>`. -/
structure WorkReportPatch where
  user_id : Option Nat := none
  title : Option String := none
  report_type : Option String := none
  department : Option String := none
  tasks : Option String := none
  outcomes : Option String := none
  challenges : Option (Option String) := none
  next_steps : Option (Option String) := none
  status : Option String := none
deriving Repr, DecidableEq

/-- The backing store: the six tables (rows in insertion order) plus the
per-table id counters (`MemStorage`'s `…IdCounter` fields / the serial
sequences of the relational backend). -/
structure Store where
  users : List User
  attendance : List Attendance
  sales : List Sale
  saleItems : List SaleItem
  products : List Product
  productCategories : List ProductCategory
  workReports : List WorkReport
  userIdCounter : Nat
  attendanceIdCounter : Nat
  saleIdCounter : Nat
  saleItemIdCounter : Nat
  productIdCounter : Nat
  categoryIdCounter : Nat
  reportIdCounter : Nat
deriving Repr, DecidableEq

/-- A store with empty tables and all counters at 1 (the counters'
initial values in `MemStorage`; sample seed data omitted). -/
def emptyStore : Store :=
  { users := [], attendance := [], sales := [], saleItems := [],
    products := [], productCategories := [], workReports := [],
    userIdCounter := 1, attendanceIdCounter := 1, saleIdCounter := 1,
    saleItemIdCounter := 1, productIdCounter := 1, categoryIdCounter := 1,
    reportIdCounter := 1 }

/-! ## Time helpers -/

/-- Milliseconds per day. -/
def msPerDay : Int := 86400000

/-- `new Date(t)` followed by `setHours(0, 0, 0, 0)`: start of the
calendar day containing `t` (fixed-offset clock, see header). -/
def dayStart (t : Int) : Int := msPerDay * (t.fdiv msPerDay)

/-- `setHours(23, 59, 59, 999)`: last millisecond of the day of `t`. -/
def dayLastMs (t : Int) : Int := dayStart t + (msPerDay - 1)

/-! ## Shared helpers -/

/-- Stable descending sort by an integer key: the model of JS
`list.sort((a, b) => key(b) - key(a))` (stable per ES2019). -/
def sortByKeyDesc (key : α → Int) (l : List α) : List α :=
  l.insertionSort (fun a b => key b ≤ key a)

/-- JS string truthiness applied to an optional string field:
`undefined`/`null`/`""` are falsy (`x || null` yields `null` on each). -/
def jsStringOrNull (x : Option String) : Option String :=
  match x with
  | some s => if s == "" then none else some s
  | none => none

/-- `String.map Char.toUpper`, the model of `String.prototype.toUpperCase`
on ASCII input (nanoid output is ASCII). -/
def jsToUpperCase (s : String) : String :=
  String.mk (s.data.map Char.toUpper)

/-- `saleDate.replace(regex all hyphens, '')`: remove every hyphen. -/
def stripHyphens (s : String) : String :=
  String.mk (s.data.filter (fun c => !(c == '-')))

/-- The default alphabet of the external `nanoid` generator (its
documented `urlAlphabet`: `A-Za-z0-9_-`, 64 symbols). -/
def nanoidAlphabet : List Char :=
  "useandom-26T198340PX75pxJACKVERYMINDBUSHWOLF_GQZbfghjklqvwyzrict".toList

/-- `s` is a possible output of `nanoid(n)`: `n` characters drawn from
`nanoidAlphabet`. -/
def IsNanoidString (s : String) (n : Nat) : Prop :=
  s.length = n ∧ ∀ c ∈ s.data, c ∈ nanoidAlphabet

instance (s : String) (n : Nat) : Decidable (IsNanoidString s n) := by
  unfold IsNanoidString; infer_instance

/-- The invoice-number template shared by the sales handler and both
`createSale`s: `INV-` + date string + `-` + uppercased `nanoid(6)`. -/
def genInvoice (dateStr nanoidOut : String) : String :=
  "INV-" ++ dateStr ++ "-" ++ jsToUpperCase nanoidOut

/-- `if (!saleData.invoice_number)` in both `createSale`s: regenerate the
invoice number when the field is falsy (empty). `dateStr` stands for
`new Date().toISOString().slice(0, 10)` with hyphens removed (8 digits
for any year 1000–9999) and `nanoidOut` for the `nanoid(6)` draw. -/
def resolvedInvoice (dateStr nanoidOut : String) (d : InsertSale) : String :=
  if d.invoice_number == "" then genInvoice dateStr nanoidOut else d.invoice_number

/-! ## MemStorage operations (src/server/storage.ts, lines 262–511) -/

/-- `MemStorage.getUser`: `this.users.get(id)`. -/
def memGetUser (s : Store) (id : Nat) : Option User :=
  s.users.find? (fun u => u.id == id)

/-- `MemStorage.getUserByUsername`: `.find` over the map's values. -/
def memGetUserByUsername (s : Store) (username : String) : Option User :=
  s.users.find? (fun u => u.username == username)

/-- `MemStorage.getUserByEmail`. -/
def memGetUserByEmail (s : Store) (email : String) : Option User :=
  s.users.find? (fun u => u.email == email)

/-- `MemStorage.createUser`: next counter id, `created_at = new Date()`. -/
def memCreateUser (s : Store) (now : Int) (d : InsertUser) : User × Store :=
  let id := s.userIdCounter
  let user : User :=
    { id := id, username := d.username, password := d.password, email := d.email,
      role := d.role, full_name := d.full_name, avatar_url := d.avatar_url,
      created_at := now }
  (user, { s with users := s.users ++ [user], userIdCounter := id + 1 })

/-- `MemStorage.getAttendanceById`. -/
def memGetAttendanceById (s : Store) (id : Nat) : Option Attendance :=
  s.attendance.find? (fun r => r.id == id)

/-- `MemStorage.getAttendanceByUserId`: filter by user, stable sort
descending by `check_in`, `slice(startIndex, startIndex + limit)`,
`totalCount` = length of the filtered list. -/
def memGetAttendanceByUserId (s : Store) (userId page limit : Nat) :
    List Attendance × Nat :=
  let records := sortByKeyDesc (fun r => r.check_in)
    (s.attendance.filter (fun r => r.user_id == userId))
  let totalCount := records.length
  let startIndex := (page - 1) * limit
  ((records.drop startIndex).take limit, totalCount)

/-- Predicate of `getTodayAttendanceByUserId`: the record belongs to the
user and its `check_in` lies in `[start of today, start of tomorrow)`. -/
def isTodayRecordOf (now : Int) (userId : Nat) (r : Attendance) : Bool :=
  r.user_id == userId && decide (dayStart now ≤ r.check_in) &&
    decide (r.check_in < dayStart now + msPerDay)

/-- `MemStorage.getTodayAttendanceByUserId`. -/
def memGetTodayAttendanceByUserId (s : Store) (userId : Nat) (now : Int) :
    Option Attendance :=
  s.attendance.find? (isTodayRecordOf now userId)

/-- `MemStorage.createAttendance`. -/
def memCreateAttendance (s : Store) (now : Int) (d : InsertAttendance) :
    Attendance × Store :=
  let id := s.attendanceIdCounter
  let record : Attendance :=
    { id := id, user_id := d.user_id, check_in := d.check_in,
      check_out := d.check_out, note := d.note, location := d.location,
      created_at := now }
  (record, { s with attendance := s.attendance ++ [record],
                    attendanceIdCounter := id + 1 })

/-- JS object spread `{...record, ...data}` for a partial attendance
update: fields present in `data` override. -/
def applyAttendancePatch (r : Attendance) (d : AttendancePatch) : Attendance :=
  { r with
    user_id := d.user_id.getD r.user_id
    check_in := d.check_in.getD r.check_in
    check_out := d.check_out.getD r.check_out
    note := d.note.getD r.note
    location := d.location.getD r.location }

/-- `MemStorage.updateAttendance`: throws (`Except.error`) when the id is
absent, else stores and returns the merged record. -/
def memUpdateAttendance (s : Store) (id : Nat) (d : AttendancePatch) :
    Except String Attendance × Store :=
  match s.attendance.find? (fun r => r.id == id) with
  | none => (.error ("Attendance record with id " ++ toString id ++ " not found"), s)
  | some r =>
    (.ok (applyAttendancePatch r d),
     { s with attendance :=
        s.attendance.map (fun a => if a.id == id then applyAttendancePatch a d else a) })

/-- `MemStorage.getSaleById`. -/
def memGetSaleById (s : Store) (id : Nat) : Option Sale :=
  s.sales.find? (fun sl => sl.id == id)

/-- `MemStorage.getSalesByUserId`: like attendance, descending by
`created_at`. -/
def memGetSalesByUserId (s : Store) (userId page limit : Nat) :
    List Sale × Nat :=
  let salesList := sortByKeyDesc (fun sl => sl.created_at)
    (s.sales.filter (fun sl => sl.user_id == userId))
  let totalCount := salesList.length
  let startIndex := (page - 1) * limit
  ((salesList.drop startIndex).take limit, totalCount)

/-- Filter of `getDailySalesByDate`: `sale_date` within
`[00:00:00.000, 23:59:59.999]` of the given day. -/
def isSaleOfDay (date : Int) (sl : Sale) : Bool :=
  decide (dayStart date ≤ sl.sale_date) && decide (sl.sale_date ≤ dayLastMs date)

/-- `MemStorage.getDailySalesByDate`: sum of `total_amount` and count over
the day's sales. -/
def memGetDailySalesByDate (s : Store) (date : Int) : ℚ × Nat :=
  let salesList := s.sales.filter (isSaleOfDay date)
  (salesList.foldl (fun sum sl => sum + sl.total_amount) 0, salesList.length)

/-- `MemStorage.createSale`: generate the invoice number if the field is
falsy, assign the next id, `created_at = new Date()`. -/
def memCreateSale (s : Store) (now : Int) (dateStr nanoidOut : String)
    (d : InsertSale) : Sale × Store :=
  let id := s.saleIdCounter
  let sale : Sale :=
    { id := id, invoice_number := resolvedInvoice dateStr nanoidOut d,
      user_id := d.user_id, customer_name := d.customer_name,
      sale_date := d.sale_date, total_amount := d.total_amount,
      tax_amount := d.tax_amount, discount_amount := d.discount_amount,
      payment_method := d.payment_method, notes := d.notes, status := d.status,
      created_at := now }
  (sale, { s with sales := s.sales ++ [sale], saleIdCounter := id + 1 })

/-- `MemStorage.createSaleItem`: append to the group of its sale (flat
representation: append to the item list). -/
def memCreateSaleItem (s : Store) (now : Int) (d : InsertSaleItem) :
    SaleItem × Store :=
  let id := s.saleItemIdCounter
  let item : SaleItem :=
    { id := id, sale_id := d.sale_id, product_id := d.product_id,
      quantity := d.quantity, unit_price := d.unit_price, created_at := now }
  (item, { s with saleItems := s.saleItems ++ [item],
                  saleItemIdCounter := id + 1 })

/-- `MemStorage.getSaleItemsBySaleId`: `this.saleItems.get(saleId) || []`
(the group = the flat list filtered by `sale_id`). -/
def memGetSaleItemsBySaleId (s : Store) (saleId : Nat) : List SaleItem :=
  s.saleItems.filter (fun it => it.sale_id == saleId)

/-- `MemStorage.getProductById`. -/
def memGetProductById (s : Store) (id : Nat) : Option Product :=
  s.products.find? (fun p => p.id == id)

/-- `MemStorage.getProductsByCategory`. -/
def memGetProductsByCategory (s : Store) (categoryId : Nat) : List Product :=
  s.products.filter (fun p => p.category_id == categoryId)

/-- `MemStorage.getProductCategories`. -/
def memGetProductCategories (s : Store) : List ProductCategory :=
  s.productCategories

/-- `MemStorage.getWorkReportById`. -/
def memGetWorkReportById (s : Store) (id : Nat) : Option WorkReport :=
  s.workReports.find? (fun w => w.id == id)

/-- `MemStorage.getWorkReportsByUserId`: descending by `created_at`. -/
def memGetWorkReportsByUserId (s : Store) (userId page limit : Nat) :
    List WorkReport × Nat :=
  let reports := sortByKeyDesc (fun w => w.created_at)
    (s.workReports.filter (fun w => w.user_id == userId))
  let totalCount := reports.length
  let startIndex := (page - 1) * limit
  ((reports.drop startIndex).take limit, totalCount)

/-- `MemStorage.createWorkReport`. -/
def memCreateWorkReport (s : Store) (now : Int) (d : InsertWorkReport) :
    WorkReport × Store :=
  let id := s.reportIdCounter
  let report : WorkReport :=
    { id := id, user_id := d.user_id, title := d.title,
      report_type := d.report_type, department := d.department,
      tasks := d.tasks, outcomes := d.outcomes, challenges := d.challenges,
      next_steps := d.next_steps, status := d.status, created_at := now }
  (report, { s with workReports := s.workReports ++ [report],
                    reportIdCounter := id + 1 })

/-- JS object spread for a partial work-report update. -/
def applyWorkReportPatch (w : WorkReport) (d : WorkReportPatch) : WorkReport :=
  { w with
    user_id := d.user_id.getD w.user_id
    title := d.title.getD w.title
    report_type := d.report_type.getD w.report_type
    department := d.department.getD w.department
    tasks := d.tasks.getD w.tasks
    outcomes := d.outcomes.getD w.outcomes
    challenges := d.challenges.getD w.challenges
    next_steps := d.next_steps.getD w.next_steps
    status := d.status.getD w.status }

/-- `MemStorage.updateWorkReport`: throws when the id is absent. -/
def memUpdateWorkReport (s : Store) (id : Nat) (d : WorkReportPatch) :
    Except String WorkReport × Store :=
  match s.workReports.find? (fun w => w.id == id) with
  | none => (.error ("Work report with id " ++ toString id ++ " not found"), s)
  | some w =>
    (.ok (applyWorkReportPatch w d),
     { s with workReports :=
        s.workReports.map (fun x => if x.id == id then applyWorkReportPatch x d else x) })

/-! ## SupabaseStorage operations (src/server/storage.ts, lines 54–259)

SQL semantics over the same row lists: `select().where(p).limit(1)` is
`(rows.filter p).head?`; `insert(..).returning()` appends the new row
(serial id, `defaultNow()` timestamp) unless a constraint of
`src/schema.ts` is violated, in which case the statement fails: the
`UNIQUE` constraints (users.username, users.email, sales.invoice_number)
and the `FOREIGN KEY` constraints declared by `.references()`
(attendance.user_id and work_reports.user_id into users.id,
sales.user_id into users.id, sale_items.sale_id into sales.id and
sale_items.product_id into products.id).
`update().set(d).where(p).returning()` rewrites every matching row and
returns the list of rewritten rows; it fails on a referencing column
re-pointed at a missing referenced row (the check is skipped for rows
whose key value is unchanged, as in Postgres). -/

/-- `SupabaseStorage.getUser`: `select … where eq(users.id, id) limit 1`. -/
def supaGetUser (s : Store) (id : Nat) : Option User :=
  (s.users.filter (fun u => u.id == id)).head?

/-- `SupabaseStorage.getUserByUsername`. -/
def supaGetUserByUsername (s : Store) (username : String) : Option User :=
  (s.users.filter (fun u => u.username == username)).head?

/-- `SupabaseStorage.getUserByEmail`. -/
def supaGetUserByEmail (s : Store) (email : String) : Option User :=
  (s.users.filter (fun u => u.email == email)).head?

/-- `SupabaseStorage.createUser`: `insert(users).values(user).returning()`;
fails on the `users.username`/`users.email` `UNIQUE` constraints. -/
def supaCreateUser (s : Store) (now : Int) (d : InsertUser) :
    Except String (User × Store) :=
  if s.users.any (fun u => u.username == d.username || u.email == d.email) then
    .error "duplicate key value violates unique constraint"
  else
    let id := s.userIdCounter
    let user : User :=
      { id := id, username := d.username, password := d.password, email := d.email,
        role := d.role, full_name := d.full_name, avatar_url := d.avatar_url,
        created_at := now }
    .ok (user, { s with users := s.users ++ [user], userIdCounter := id + 1 })

/-- `SupabaseStorage.getAttendanceById`. -/
def supaGetAttendanceById (s : Store) (id : Nat) : Option Attendance :=
  (s.attendance.filter (fun r => r.id == id)).head?

/-- `SupabaseStorage.getAttendanceByUserId`: `where eq(user_id) orderBy
desc(check_in) limit … offset …` plus a `count(*)` over the same filter. -/
def supaGetAttendanceByUserId (s : Store) (userId page limit : Nat) :
    List Attendance × Nat :=
  let offset := (page - 1) * limit
  let records := ((sortByKeyDesc (fun r => r.check_in)
    (s.attendance.filter (fun r => r.user_id == userId))).drop offset).take limit
  let totalCount := (s.attendance.filter (fun r => r.user_id == userId)).length
  (records, totalCount)

/-- `SupabaseStorage.getTodayAttendanceByUserId`: same day window,
`limit 1` over the table in row order. -/
def supaGetTodayAttendanceByUserId (s : Store) (userId : Nat) (now : Int) :
    Option Attendance :=
  (s.attendance.filter (isTodayRecordOf now userId)).head?

/-- `SupabaseStorage.createAttendance`: fails on the
`attendance.user_id → users.id` foreign key when no such user exists. -/
def supaCreateAttendance (s : Store) (now : Int) (d : InsertAttendance) :
    Except String (Attendance × Store) :=
  if !(s.users.any (fun u => u.id == d.user_id)) then
    .error "violates foreign key constraint"
  else
    let id := s.attendanceIdCounter
    let record : Attendance :=
      { id := id, user_id := d.user_id, check_in := d.check_in,
        check_out := d.check_out, note := d.note, location := d.location,
        created_at := now }
    .ok (record, { s with attendance := s.attendance ++ [record],
                          attendanceIdCounter := id + 1 })

/-- `SupabaseStorage.updateAttendance`: `update … set data where eq(id)
returning`, then `result[0]` — `none` (not an error) when no row matched.
Re-pointing `user_id` at a missing user makes the statement fail on the
foreign key (checked only for rows whose `user_id` actually changes). -/
def supaUpdateAttendance (s : Store) (id : Nat) (d : AttendancePatch) :
    Except String (Option Attendance) × Store :=
  let matching := s.attendance.filter (fun r => r.id == id)
  let fkViolated :=
    match d.user_id with
    | some v =>
      matching.any (fun r => !(r.user_id == v)) && !(s.users.any (fun u => u.id == v))
    | none => false
  if fkViolated then
    (.error "violates foreign key constraint", s)
  else
    (.ok (matching.map (fun r => applyAttendancePatch r d)).head?,
     { s with attendance :=
        s.attendance.map (fun a => if a.id == id then applyAttendancePatch a d else a) })

/-- `SupabaseStorage.getSaleById`. -/
def supaGetSaleById (s : Store) (id : Nat) : Option Sale :=
  (s.sales.filter (fun sl => sl.id == id)).head?

/-- `SupabaseStorage.getSalesByUserId`. -/
def supaGetSalesByUserId (s : Store) (userId page limit : Nat) :
    List Sale × Nat :=
  let offset := (page - 1) * limit
  let salesResult := ((sortByKeyDesc (fun sl => sl.created_at)
    (s.sales.filter (fun sl => sl.user_id == userId))).drop offset).take limit
  let totalCount := (s.sales.filter (fun sl => sl.user_id == userId)).length
  (salesResult, totalCount)

/-- `SupabaseStorage.getDailySalesByDate`. -/
def supaGetDailySalesByDate (s : Store) (date : Int) : ℚ × Nat :=
  let salesResult := s.sales.filter (isSaleOfDay date)
  (salesResult.foldl (fun sum sl => sum + sl.total_amount) 0, salesResult.length)

/-- `SupabaseStorage.createSale`: same invoice generation as `MemStorage`,
then `insert(sales)`; fails on the `sales.invoice_number` `UNIQUE`
constraint and on the `sales.user_id → users.id` foreign key. -/
def supaCreateSale (s : Store) (now : Int) (dateStr nanoidOut : String)
    (d : InsertSale) : Except String (Sale × Store) :=
  let inv := resolvedInvoice dateStr nanoidOut d
  if !(s.users.any (fun u => u.id == d.user_id)) then
    .error "violates foreign key constraint"
  else if s.sales.any (fun sl => sl.invoice_number == inv) then
    .error "duplicate key value violates unique constraint"
  else
    let id := s.saleIdCounter
    let sale : Sale :=
      { id := id, invoice_number := inv, user_id := d.user_id,
        customer_name := d.customer_name, sale_date := d.sale_date,
        total_amount := d.total_amount, tax_amount := d.tax_amount,
        discount_amount := d.discount_amount, payment_method := d.payment_method,
        notes := d.notes, status := d.status, created_at := now }
    .ok (sale, { s with sales := s.sales ++ [sale], saleIdCounter := id + 1 })

/-- `SupabaseStorage.createSaleItem`: fails on the
`sale_items.sale_id → sales.id` or `sale_items.product_id → products.id`
foreign keys when the referenced row is missing. -/
def supaCreateSaleItem (s : Store) (now : Int) (d : InsertSaleItem) :
    Except String (SaleItem × Store) :=
  if !(s.sales.any (fun sl => sl.id == d.sale_id)) ||
      !(s.products.any (fun p => p.id == d.product_id)) then
    .error "violates foreign key constraint"
  else
    let id := s.saleItemIdCounter
    let item : SaleItem :=
      { id := id, sale_id := d.sale_id, product_id := d.product_id,
        quantity := d.quantity, unit_price := d.unit_price, created_at := now }
    .ok (item, { s with saleItems := s.saleItems ++ [item],
                        saleItemIdCounter := id + 1 })

/-- `SupabaseStorage.getSaleItemsBySaleId`. -/
def supaGetSaleItemsBySaleId (s : Store) (saleId : Nat) : List SaleItem :=
  s.saleItems.filter (fun it => it.sale_id == saleId)

/-- `SupabaseStorage.getProductById`. -/
def supaGetProductById (s : Store) (id : Nat) : Option Product :=
  (s.products.filter (fun p => p.id == id)).head?

/-- `SupabaseStorage.getProductsByCategory`. -/
def supaGetProductsByCategory (s : Store) (categoryId : Nat) : List Product :=
  s.products.filter (fun p => p.category_id == categoryId)

/-- `SupabaseStorage.getProductCategories`. -/
def supaGetProductCategories (s : Store) : List ProductCategory :=
  s.productCategories

/-- `SupabaseStorage.getWorkReportById`. -/
def supaGetWorkReportById (s : Store) (id : Nat) : Option WorkReport :=
  (s.workReports.filter (fun w => w.id == id)).head?

/-- `SupabaseStorage.getWorkReportsByUserId`. -/
def supaGetWorkReportsByUserId (s : Store) (userId page limit : Nat) :
    List WorkReport × Nat :=
  let offset := (page - 1) * limit
  let reports := ((sortByKeyDesc (fun w => w.created_at)
    (s.workReports.filter (fun w => w.user_id == userId))).drop offset).take limit
  let totalCount := (s.workReports.filter (fun w => w.user_id == userId)).length
  (reports, totalCount)

/-- `SupabaseStorage.createWorkReport`: fails on the
`work_reports.user_id → users.id` foreign key when no such user exists. -/
def supaCreateWorkReport (s : Store) (now : Int) (d : InsertWorkReport) :
    Except String (WorkReport × Store) :=
  if !(s.users.any (fun u => u.id == d.user_id)) then
    .error "violates foreign key constraint"
  else
    let id := s.reportIdCounter
    let report : WorkReport :=
      { id := id, user_id := d.user_id, title := d.title,
        report_type := d.report_type, department := d.department,
        tasks := d.tasks, outcomes := d.outcomes, challenges := d.challenges,
        next_steps := d.next_steps, status := d.status, created_at := now }
    .ok (report, { s with workReports := s.workReports ++ [report],
                          reportIdCounter := id + 1 })

/-- `SupabaseStorage.updateWorkReport`: `result[0]`, `none` when no row
matched; fails on the `work_reports.user_id → users.id` foreign key when
the patch re-points `user_id` at a missing user. -/
def supaUpdateWorkReport (s : Store) (id : Nat) (d : WorkReportPatch) :
    Except String (Option WorkReport) × Store :=
  let matching := s.workReports.filter (fun w => w.id == id)
  let fkViolated :=
    match d.user_id with
    | some v =>
      matching.any (fun w => !(w.user_id == v)) && !(s.users.any (fun u => u.id == v))
    | none => false
  if fkViolated then
    (.error "violates foreign key constraint", s)
  else
    (.ok (matching.map (fun w => applyWorkReportPatch w d)).head?,
     { s with workReports :=
        s.workReports.map (fun x => if x.id == id then applyWorkReportPatch x d else x) })

/-! ## calculateWorkingHours (src/client/src/lib/utils.ts, lines 31–42) -/

/-- `calculateWorkingHours(checkIn, checkOut)` on already-parsed (hence
non-falsy) timestamps: `Math.floor` of the millisecond difference over an
hour, and of the JS remainder (`%`, truncated — `Int.tmod`) over a
minute. -/
def calculateWorkingHours (checkIn checkOut : Int) : String :=
  let diffInMs := checkOut - checkIn
  let diffInHours := Int.fdiv diffInMs (1000 * 60 * 60)
  let diffInMinutes := Int.fdiv (Int.tmod diffInMs (1000 * 60 * 60)) (1000 * 60)
  toString diffInHours ++ " hrs " ++ toString diffInMinutes ++ " mins"

/-! ## Session validation and user creation (src/unnamed/part_001) -/

/-- The profile object `validateSession` hands to handlers. -/
structure UserProfile where
  id : String
  username : String
  role : String
  avatar_url : Option String
  full_name : Option String
  email : String
deriving Repr, DecidableEq

/-- `validateSession` (routes file, lines 22–53).  Token verification is
delegated to the external identity provider; its outcome is the
parameter: `none` for a missing/malformed header or failed verification,
`some email?` for a verified token whose identity carries the optional
email (`data.user.email || ''` looks up the empty string when absent).
The storage singleton is `MemStorage`. -/
def validateSession (s : Store) (authOutcome : Option (Option String)) :
    Option UserProfile :=
  match authOutcome with
  | none => none
  | some tokenEmail =>
    match memGetUserByEmail s (tokenEmail.getD "") with
    | none => none
    | some user =>
      some { id := toString user.id, username := user.username, role := user.role,
             avatar_url := user.avatar_url, full_name := user.full_name,
             email := user.email }

/-- `insertUserSchema.parse` (drizzle-zod over `src/schema.ts` lines 6–20):
the only value-level constraint on an already-typed object is the
`role` enum `["admin", "karyawan"]`. -/
def insertUserSchemaCheck (d : InsertUser) : Bool :=
  d.role == "admin" || d.role == "karyawan"

/-- Response of `POST /api/users`. -/
inductive CreateUserResult where
  | created (user : User)
  | badRequest (message : String)
deriving Repr, DecidableEq

/-- `POST /api/users` handler: zod-parse, duplicate-email check,
`storage.createUser`. -/
def postUsersHandler (s : Store) (now : Int) (d : InsertUser) :
    CreateUserResult × Store :=
  if !insertUserSchemaCheck d then
    (.badRequest "invalid input", s)
  else
    match memGetUserByEmail s d.email with
    | some _ => (.badRequest "User with this email already exists", s)
    | none =>
      let (user, s1) := memCreateUser s now d
      (.created user, s1)

/-! ## POST /api/attendance handler (routes file, lines 244–302) -/

/-- Responses of `POST /api/attendance`.  `checkInTime`/`checkOutTime`
keep the raw timestamps (their `formatTime` rendering is presentation
only). -/
inductive AttendanceResult where
  | checkedIn (id : Nat) (checkInTime : Int) (message : String)
  | checkedOut (id : Nat) (checkOutTime : Int) (workingHours : String)
      (message : String)
  | badRequest (message : String)
deriving Repr, DecidableEq

/-- The note stored by a successful check-out:
`note ? (existingRecord.note ? existingRecord.note + "; " + note : note)
: existingRecord.note` with JS string truthiness. -/
def checkoutNote (note : Option String) (existingNote : Option String) :
    Option String :=
  match note with
  | some n =>
    if n == "" then existingNote
    else
      match existingNote with
      | some en => if en == "" then some n else some (en ++ "; " ++ n)
      | none => some n
  | none => existingNote

/-- `POST /api/attendance` for the authenticated user `userId` at clock
time `now`; `storage` is the `MemStorage` singleton. -/
def postAttendanceHandler (s : Store) (userId : Nat) (now : Int)
    (attendanceType : String) (note : Option String) :
    AttendanceResult × Store :=
  if attendanceType == "checkin" then
    match memGetTodayAttendanceByUserId s userId now with
    | some _ => (.badRequest "Already checked in today", s)
    | none =>
      let attendanceData : InsertAttendance :=
        { user_id := userId, check_in := now, check_out := none,
          location := "Office - Jakarta Headquarters",
          note := jsStringOrNull note }
      let (record, s1) := memCreateAttendance s now attendanceData
      (.checkedIn record.id record.check_in "Check-in successful", s1)
  else if attendanceType == "checkout" then
    match memGetTodayAttendanceByUserId s userId now with
    | none => (.badRequest "No check-in record found for today", s)
    | some existingRecord =>
      if existingRecord.check_out.isSome then
        (.badRequest "Already checked out today", s)
      else
        match memUpdateAttendance s existingRecord.id
          { check_out := some (some now),
            note := some (checkoutNote note existingRecord.note) } with
        | (.ok updated, s1) =>
          (.checkedOut updated.id (updated.check_out.getD 0)
            (calculateWorkingHours updated.check_in (updated.check_out.getD 0))
            "Check-out successful", s1)
        | (.error e, s1) => (.badRequest e, s1)
  else
    (.badRequest "Invalid attendance type", s)

/-! ## POST /api/sales handler (routes file, lines 359–416) -/

/-- One entry of the request's `productItems`. -/
structure ProductItem where
  productId : Nat
  quantity : Int
  price : ℚ
deriving Repr, DecidableEq

/-- `subtotal = productItems.reduce((sum, item) => sum + item.price *
item.quantity, 0)`. -/
def saleSubtotal (productItems : List ProductItem) : ℚ :=
  productItems.foldl (fun sum item => sum + item.price * (item.quantity : ℚ)) 0

/-- The `saleData` object built by the handler: 11 % tax on the subtotal,
zero discount, invoice number from the raw `saleDate` string with the
hyphens removed plus the uppercased `nanoid(6)` draw, status
`"completed"`.  `saleDateMs` is the result of `new Date(saleDate)`. -/
def postSaleSaleData (userId : Nat) (saleDate : String) (saleDateMs : Int)
    (customerName : String) (productItems : List ProductItem)
    (paymentMethod : String) (notes : Option String) (nanoidOut : String) :
    InsertSale :=
  let subtotal := saleSubtotal productItems
  let taxAmount := subtotal * (11 / 100 : ℚ)
  let discountAmount : ℚ := 0
  let totalAmount := subtotal + taxAmount - discountAmount
  { user_id := userId,
    invoice_number := genInvoice (stripHyphens saleDate) nanoidOut,
    customer_name := customerName,
    sale_date := saleDateMs,
    total_amount := totalAmount,
    tax_amount := taxAmount,
    discount_amount := discountAmount,
    payment_method := paymentMethod,
    notes := jsStringOrNull notes,
    status := "completed" }

/-- `POST /api/sales`: build `saleData`, `storage.createSale`, then one
`storage.createSaleItem` per product item (the promises of the
`productItems.map` resolve in creation order).  `dateStr`/`nanoidOut2`
feed `createSale`'s own invoice generation (unused here: the handler
always supplies a non-empty invoice number). -/
def postSalesHandler (s : Store) (userId : Nat) (now : Int)
    (saleDate : String) (saleDateMs : Int) (customerName : String)
    (productItems : List ProductItem) (paymentMethod : String)
    (notes : Option String) (nanoidOut : String) (dateStr nanoidOut2 : String) :
    Sale × Store :=
  let saleData := postSaleSaleData userId saleDate saleDateMs customerName
    productItems paymentMethod notes nanoidOut
  let (sale, s1) := memCreateSale s now dateStr nanoidOut2 saleData
  let s2 := productItems.foldl
    (fun st item =>
      (memCreateSaleItem st now
        { sale_id := sale.id, product_id := item.productId,
          quantity := item.quantity, unit_price := item.price }).2) s1
  (sale, s2)

/-! ## GET /api/dashboard/stats (routes file, lines 102–123) -/

/-- The number the stats handler feeds to the `Intl.NumberFormat` currency
formatter: `totalSales || 45750000` — the hardcoded fallback whenever the
day's total is zero (zero is falsy in JS). -/
def dashboardStatsTotalSales (s : Store) (now : Int) : ℚ :=
  let totalSales := (memGetDailySalesByDate s now).1
  if totalSales = 0 then 45750000 else totalSales

/-! ## Invoice-number pattern -/

/-- ASCII digit. -/
def isDigitChar (c : Char) : Bool :=
  decide ('0' ≤ c) && decide (c ≤ '9')

/-- Character class `[A-Z0-9]` of the spec's invoice pattern. -/
def isUpperAlnumChar (c : Char) : Bool :=
  (decide ('A' ≤ c) && decide (c ≤ 'Z')) || isDigitChar c

/-- Character class actually produced by `nanoid(6).toUpperCase()`:
`[A-Z0-9_-]`. -/
def isUpperNanoidChar (c : Char) : Bool :=
  isUpperAlnumChar c || c == '_' || c == '-'

/-- Full-string match of a given invoice layout: literal `INV-` (4 chars),
eight characters of the date class, `-`, six characters of the suffix
class, and nothing after (total length pinned to 19 by the length
checks). -/
def matchesInvoiceShape (sufClass : Char → Bool) (s : String) : Bool :=
  let cs := s.data
  cs.take 4 == ['I', 'N', 'V', '-'] &&
  ((cs.drop 4).take 8).length == 8 && ((cs.drop 4).take 8).all isDigitChar &&
  (cs.drop 12).take 1 == ['-'] &&
  (cs.drop 13).length == 6 && (cs.drop 13).all sufClass

/-- The spec's regex `INV-` + 8 digits + `-` + `[A-Z0-9]` sextet. -/
def matchesInvoicePattern (s : String) : Bool :=
  matchesInvoiceShape isUpperAlnumChar s

/-- The shape the code really guarantees: suffix over `[A-Z0-9_-]`. -/
def matchesInvoicePatternAmended (s : String) : Bool :=
  matchesInvoiceShape isUpperNanoidChar s

/-! ## Specification predicates -/

/-- The pagination contract of §8 of the spec for one list operation over
the caller's `rows`: the returned page is `sorted[(p-1)*l : min(N, p*l)]`
of the descending sort of `rows` (written `take (p*l)` then
`drop ((p-1)*l)` — `take` clips at `N`), `totalCount` is `N = rows.length`
independent of `p` and `l`, and the sorted list is a permutation of
`rows` that is pairwise descending in the key. -/
def PaginatedCorrectly (rows : List α) (key : α → Int) (result : List α × Nat)
    (p lim : Nat) : Prop :=
  result.1 = ((sortByKeyDesc key rows).take (p * lim)).drop ((p - 1) * lim) ∧
  result.2 = rows.length ∧
  (sortByKeyDesc key rows).Perm rows ∧
  (sortByKeyDesc key rows).Pairwise (fun a b => key b ≤ key a)

/-- Row rewrite performed by a successful check-out: only the found
today-record (matched by id) gets `check_out = now` and the merged note;
every other row is untouched. -/
def checkoutMapFn (now : Int) (note : Option String) (r : Attendance) :
    Attendance → Attendance := fun a =>
  if a.id == r.id then
    { a with check_out := some now, note := checkoutNote note r.note }
  else a

/-- The C4 contract of `POST /api/attendance` at one store/input: the
check-in conflict iff a today-record exists, check-in creation otherwise,
the two check-out failures, and the successful check-out update; every
failure leaves the store unchanged. -/
def CheckinCheckoutSpec (s : Store) (userId : Nat) (now : Int)
    (note : Option String) : Prop :=
  (postAttendanceHandler s userId now "checkin" note =
      (.badRequest "Already checked in today", s) ↔
    (memGetTodayAttendanceByUserId s userId now).isSome = true) ∧
  (memGetTodayAttendanceByUserId s userId now = none →
    postAttendanceHandler s userId now "checkin" note =
      (.checkedIn s.attendanceIdCounter now "Check-in successful",
       { s with
          attendance := s.attendance ++
            [{ id := s.attendanceIdCounter, user_id := userId, check_in := now,
               check_out := none, note := jsStringOrNull note,
               location := "Office - Jakarta Headquarters", created_at := now }],
          attendanceIdCounter := s.attendanceIdCounter + 1 })) ∧
  (postAttendanceHandler s userId now "checkout" note =
      (.badRequest "No check-in record found for today", s) ↔
    memGetTodayAttendanceByUserId s userId now = none) ∧
  (∀ r, memGetTodayAttendanceByUserId s userId now = some r →
    r.check_out.isSome = true →
    postAttendanceHandler s userId now "checkout" note =
      (.badRequest "Already checked out today", s)) ∧
  (∀ r, memGetTodayAttendanceByUserId s userId now = some r →
    r.check_out = none →
    (s.attendance.map (fun a => a.id)).Nodup →
    postAttendanceHandler s userId now "checkout" note =
      (.checkedOut r.id now (calculateWorkingHours r.check_in now)
         "Check-out successful",
       { s with attendance := s.attendance.map (checkoutMapFn now note r) }))

/-- The C10 frame contract of a successful check-out: only `check_out` and
`note` of the today-record change; every other field, row and table is
untouched. -/
def CheckoutFrameSpec (s : Store) (userId : Nat) (now : Int)
    (note : Option String) (r : Attendance) : Prop :=
  ((postAttendanceHandler s userId now "checkout" note).2.users = s.users ∧
   (postAttendanceHandler s userId now "checkout" note).2.sales = s.sales ∧
   (postAttendanceHandler s userId now "checkout" note).2.saleItems = s.saleItems ∧
   (postAttendanceHandler s userId now "checkout" note).2.products = s.products ∧
   (postAttendanceHandler s userId now "checkout" note).2.productCategories =
     s.productCategories ∧
   (postAttendanceHandler s userId now "checkout" note).2.workReports =
     s.workReports ∧
   (postAttendanceHandler s userId now "checkout" note).2.userIdCounter =
     s.userIdCounter ∧
   (postAttendanceHandler s userId now "checkout" note).2.attendanceIdCounter =
     s.attendanceIdCounter ∧
   (postAttendanceHandler s userId now "checkout" note).2.saleIdCounter =
     s.saleIdCounter ∧
   (postAttendanceHandler s userId now "checkout" note).2.saleItemIdCounter =
     s.saleItemIdCounter ∧
   (postAttendanceHandler s userId now "checkout" note).2.productIdCounter =
     s.productIdCounter ∧
   (postAttendanceHandler s userId now "checkout" note).2.categoryIdCounter =
     s.categoryIdCounter ∧
   (postAttendanceHandler s userId now "checkout" note).2.reportIdCounter =
     s.reportIdCounter ∧
   (postAttendanceHandler s userId now "checkout" note).2.attendance =
     s.attendance.map (checkoutMapFn now note r)) ∧
  (∀ a : Attendance,
    (checkoutMapFn now note r a).id = a.id ∧
    (checkoutMapFn now note r a).user_id = a.user_id ∧
    (checkoutMapFn now note r a).check_in = a.check_in ∧
    (checkoutMapFn now note r a).location = a.location ∧
    (checkoutMapFn now note r a).created_at = a.created_at ∧
    (¬a.id = r.id → checkoutMapFn now note r a = a))

/-- The C7 contract (amended): `MemStorage` stores and returns the merged
entity when the id exists and raises not-found otherwise;
`SupabaseStorage` returns the merged entity when the id exists and the
patch does not re-point `user_id` at a missing user, returns no row and no
error on a missing id, and fails on the foreign key — store unchanged —
when an existing row's `user_id` is re-pointed at a missing user (a case
where `MemStorage` still succeeds). -/
def C7UpdateSpec (s : Store) (id : Nat) (dA : AttendancePatch)
    (dW : WorkReportPatch) : Prop :=
  (∀ r, s.attendance.find? (fun a => a.id == id) = some r →
    memUpdateAttendance s id dA =
      (.ok (applyAttendancePatch r dA),
       { s with attendance :=
          s.attendance.map (fun a => if a.id == id then applyAttendancePatch a dA else a) }) ∧
    ((∀ v, dA.user_id = some v → ∃ u ∈ s.users, u.id = v) →
      supaUpdateAttendance s id dA =
        (.ok (some (applyAttendancePatch r dA)),
         { s with attendance :=
            s.attendance.map (fun a => if a.id == id then applyAttendancePatch a dA else a) }))) ∧
  (s.attendance.find? (fun a => a.id == id) = none →
    memUpdateAttendance s id dA =
      (.error ("Attendance record with id " ++ toString id ++ " not found"), s) ∧
    supaUpdateAttendance s id dA = (.ok none, s)) ∧
  (∀ v, dA.user_id = some v →
    (s.attendance.filter (fun a => a.id == id)).any (fun a => !(a.user_id == v)) = true →
    s.users.any (fun u => u.id == v) = false →
    supaUpdateAttendance s id dA = (.error "violates foreign key constraint", s)) ∧
  (∀ w, s.workReports.find? (fun x => x.id == id) = some w →
    memUpdateWorkReport s id dW =
      (.ok (applyWorkReportPatch w dW),
       { s with workReports :=
          s.workReports.map (fun x => if x.id == id then applyWorkReportPatch x dW else x) }) ∧
    ((∀ v, dW.user_id = some v → ∃ u ∈ s.users, u.id = v) →
      supaUpdateWorkReport s id dW =
        (.ok (some (applyWorkReportPatch w dW)),
         { s with workReports :=
            s.workReports.map (fun x => if x.id == id then applyWorkReportPatch x dW else x) }))) ∧
  (s.workReports.find? (fun x => x.id == id) = none →
    memUpdateWorkReport s id dW =
      (.error ("Work report with id " ++ toString id ++ " not found"), s) ∧
    supaUpdateWorkReport s id dW = (.ok none, s)) ∧
  (∀ v, dW.user_id = some v →
    (s.workReports.filter (fun x => x.id == id)).any (fun x => !(x.user_id == v)) = true →
    s.users.any (fun u => u.id == v) = false →
    supaUpdateWorkReport s id dW = (.error "violates foreign key constraint", s))

/-- The C1 contract (amended): result/state agreement of the two backends
on one store and one input per operation.  The constrained inserts agree
as `supaCreate… = .ok (memCreate…)`; for the update operations the result
comparison goes through `Except.toOption` (`MemStorage` returns the
entity, `SupabaseStorage` `result[0]` of the returned rows). -/
def BackendsAgree (s : Store) (now : Int) (dateStr nanoidOut : String)
    (idU : Nat) (username email : String) (dU : InsertUser)
    (idA uid page lim : Nat) (dA : InsertAttendance) (pA : AttendancePatch)
    (idS : Nat) (dS : InsertSale) (dSI : InsertSaleItem) (saleId : Nat)
    (idP catId idW : Nat) (dW : InsertWorkReport) (pW : WorkReportPatch) : Prop :=
  memGetUser s idU = supaGetUser s idU ∧
  memGetUserByUsername s username = supaGetUserByUsername s username ∧
  memGetUserByEmail s email = supaGetUserByEmail s email ∧
  supaCreateUser s now dU = .ok (memCreateUser s now dU) ∧
  memGetAttendanceById s idA = supaGetAttendanceById s idA ∧
  memGetAttendanceByUserId s uid page lim = supaGetAttendanceByUserId s uid page lim ∧
  memGetTodayAttendanceByUserId s uid now = supaGetTodayAttendanceByUserId s uid now ∧
  supaCreateAttendance s now dA = .ok (memCreateAttendance s now dA) ∧
  (supaUpdateAttendance s idA pA).1 = .ok (memUpdateAttendance s idA pA).1.toOption ∧
  (memUpdateAttendance s idA pA).2 = (supaUpdateAttendance s idA pA).2 ∧
  memGetSaleById s idS = supaGetSaleById s idS ∧
  memGetSalesByUserId s uid page lim = supaGetSalesByUserId s uid page lim ∧
  memGetDailySalesByDate s now = supaGetDailySalesByDate s now ∧
  supaCreateSale s now dateStr nanoidOut dS = .ok (memCreateSale s now dateStr nanoidOut dS) ∧
  supaCreateSaleItem s now dSI = .ok (memCreateSaleItem s now dSI) ∧
  memGetSaleItemsBySaleId s saleId = supaGetSaleItemsBySaleId s saleId ∧
  memGetProductById s idP = supaGetProductById s idP ∧
  memGetProductsByCategory s catId = supaGetProductsByCategory s catId ∧
  memGetProductCategories s = supaGetProductCategories s ∧
  memGetWorkReportById s idW = supaGetWorkReportById s idW ∧
  memGetWorkReportsByUserId s uid page lim = supaGetWorkReportsByUserId s uid page lim ∧
  supaCreateWorkReport s now dW = .ok (memCreateWorkReport s now dW) ∧
  (supaUpdateWorkReport s idW pW).1 = .ok (memUpdateWorkReport s idW pW).1.toOption ∧
  (memUpdateWorkReport s idW pW).2 = (supaUpdateWorkReport s idW pW).2

/-! ## Sample data for witnesses and counterexamples -/

/-- Sample admin user. -/
def sUser1 : User :=
  { id := 1, username := "alice", password := "pw", email := "alice@x.co",
    role := "admin", full_name := none, avatar_url := none, created_at := 0 }

/-- Sample staff-role (`karyawan`) user. -/
def sUser2 : User :=
  { id := 2, username := "budi", password := "pw", email := "budi@x.co",
    role := "karyawan", full_name := none, avatar_url := none, created_at := 0 }

/-- Closed attendance record of a previous day (user 1). -/
def sAtt1 : Attendance :=
  { id := 1, user_id := 1, check_in := -100, check_out := some (-50),
    note := none, location := "Office - Jakarta Headquarters", created_at := -100 }

/-- Open attendance record of day 0 (user 1, the today-record at
`now = 100`). -/
def sAtt2 : Attendance :=
  { id := 2, user_id := 1, check_in := 90, check_out := none,
    note := some "morning", location := "Office - Jakarta Headquarters",
    created_at := 90 }

/-- Open attendance record of day 0 (user 2). -/
def sAtt3 : Attendance :=
  { id := 3, user_id := 2, check_in := 95, check_out := none, note := none,
    location := "Office - Jakarta Headquarters", created_at := 95 }

/-- Sample sale with a known invoice number. -/
def sSale1 : Sale :=
  { id := 1, invoice_number := "INV-20240101-ABCDEF", user_id := 1,
    customer_name := "cust", sale_date := 10, total_amount := 100,
    tax_amount := 11, discount_amount := 0, payment_method := "cash",
    notes := none, status := "completed", created_at := 10 }

/-- Sample sale item of `sSale1`. -/
def sItem1 : SaleItem :=
  { id := 1, sale_id := 1, product_id := 1, quantity := 2, unit_price := 50,
    created_at := 10 }

/-- Sample work report of user 1. -/
def sWr1 : WorkReport :=
  { id := 1, user_id := 1, title := "T", report_type := "daily",
    department := "D", tasks := "t", outcomes := "o", challenges := none,
    next_steps := none, status := "submitted", created_at := 10 }

/-- A populated store exercising every table. -/
def sampleStore : Store :=
  { users := [sUser1, sUser2], attendance := [sAtt1, sAtt2, sAtt3],
    sales := [sSale1], saleItems := [sItem1], products := [],
    productCategories := [], workReports := [sWr1],
    userIdCounter := 3, attendanceIdCounter := 4, saleIdCounter := 2,
    saleItemIdCounter := 2, productIdCounter := 1, categoryIdCounter := 1,
    reportIdCounter := 2 }

/-- Fresh user input (username and email not in `sampleStore`). -/
def freshUser : InsertUser :=
  { username := "carol", password := "pw", email := "carol@x.co",
    role := "karyawan" }

/-- User input whose username collides with `sUser1`. -/
def dupUser : InsertUser :=
  { username := "alice", password := "pw2", email := "new@x.co",
    role := "admin" }

/-- Sale input with a fresh, explicitly supplied invoice number. -/
def freshSale : InsertSale :=
  { invoice_number := "INV-20240102-XYZXYZ", user_id := 1,
    customer_name := "c2", sale_date := 20, total_amount := 0,
    tax_amount := 0, discount_amount := 0, payment_method := "cash",
    status := "completed" }

/-- Sale input whose invoice number collides with `sSale1`. -/
def dupSale : InsertSale :=
  { invoice_number := "INV-20240101-ABCDEF", user_id := 1,
    customer_name := "c3", sale_date := 20, total_amount := 0,
    tax_amount := 0, discount_amount := 0, payment_method := "cash",
    status := "completed" }

/-- Sale input with a falsy (empty) invoice number: both `createSale`s
generate one. -/
def noInvoiceSale : InsertSale :=
  { invoice_number := "", user_id := 1, customer_name := "c4",
    sale_date := 30, total_amount := 0, tax_amount := 0,
    discount_amount := 0, payment_method := "cash", status := "completed" }

/-- User input with the valid non-admin role `karyawan`. -/
def karyawanInsert : InsertUser :=
  { username := "u", password := "p", email := "e@x.co", role := "karyawan" }

/-- The `User` row `POST /api/users` creates from `karyawanInsert` on the
empty store. -/
def karyawanUser : User :=
  { id := 1, username := "u", password := "p", email := "e@x.co",
    role := "karyawan", full_name := none, avatar_url := none,
    created_at := 0 }

/-- User input with the spec's claimed role `staff`. -/
def staffInsert : InsertUser :=
  { username := "u", password := "p", email := "e@x.co", role := "staff" }

/-- Sample attendance input. -/
def sInsertAtt : InsertAttendance :=
  { user_id := 2, check_in := 120,
    location := "Office - Jakarta Headquarters" }

/-- Sample sale-item input (references `sSale1` and `sProd1`). -/
def sInsertItem : InsertSaleItem :=
  { sale_id := 1, product_id := 1, quantity := 1, unit_price := 25 }

/-- Sample work-report input. -/
def sInsertWr : InsertWorkReport :=
  { user_id := 2, title := "T2", report_type := "weekly", department := "D",
    tasks := "t2", outcomes := "o2", status := "submitted" }

/-- Sample product category. -/
def sCat1 : ProductCategory :=
  { id := 1, name := "Electronics", description := none, created_at := 0 }

/-- Sample product (category 1). -/
def sProd1 : Product :=
  { id := 1, name := "Laptop", description := none, price := 100,
    category_id := 1, sku := "ELEC-001", created_at := 0 }

/-- `sampleStore` extended with a product and its category, so that every
foreign key an insert can reference is satisfiable. -/
def fkSampleStore : Store :=
  { sampleStore with products := [sProd1], productCategories := [sCat1],
                     productIdCounter := 2, categoryIdCounter := 2 }

/-- Attendance input whose `user_id` references no stored user. -/
def danglingAtt : InsertAttendance :=
  { user_id := 9, check_in := 0,
    location := "Office - Jakarta Headquarters" }

/-- Attendance patch re-pointing `user_id` at a missing user. -/
def danglingPatch : AttendancePatch := { user_id := some 99 }

/-- Work-report patch re-pointing `user_id` at a missing user. -/
def danglingWrPatch : WorkReportPatch := { user_id := some 99 }

/-! ## Shared lemmas -/

theorem head?_filter_eq_find? (p : α → Bool) (l : List α) :
    (l.filter p).head? = l.find? p := by
  induction l with
  | nil => rfl
  | cons a l ih =>
    simp only [List.filter_cons, List.find?_cons]
    cases h : p a <;> simp [ih]

theorem sortByKeyDesc_perm (key : α → Int) (l : List α) :
    (sortByKeyDesc key l).Perm l :=
  List.perm_insertionSort _ l

theorem sortByKeyDesc_length (key : α → Int) (l : List α) :
    (sortByKeyDesc key l).length = l.length :=
  List.length_insertionSort _ l

theorem sortByKeyDesc_sorted (key : α → Int) (l : List α) :
    (sortByKeyDesc key l).Pairwise (fun a b => key b ≤ key a) := by
  haveI : IsTotal α (fun a b => key b ≤ key a) := ⟨fun a b => le_total (key b) (key a)⟩
  haveI : IsTrans α (fun a b => key b ≤ key a) :=
    ⟨fun _ _ _ h₁ h₂ => le_trans h₂ h₁⟩
  exact List.sorted_insertionSort _ l

theorem toString_int_ofNat (n : Nat) : toString ((n : Nat) : Int) = toString n := rfl

/-- In a table whose ids are pairwise distinct, searching by the id of a
member row finds that row. -/
theorem find?_attendance_id_of_nodup {l : List Attendance}
    (hnd : (l.map (fun a => a.id)).Nodup) {r : Attendance} (hr : r ∈ l) :
    l.find? (fun a => a.id == r.id) = some r := by
  induction l with
  | nil => cases hr
  | cons a l ih =>
    rw [List.map_cons, List.nodup_cons] at hnd
    rcases List.mem_cons.mp hr with rfl | hr'
    · simp [List.find?_cons]
    · have hne : (a.id == r.id) = false := by
        have hmem : r.id ∈ l.map (fun a => a.id) := List.mem_map_of_mem _ hr'
        exact beq_eq_false_iff_ne.mpr (fun h => hnd.1 (h ▸ hmem))

      rw [List.find?_cons, hne, ih hnd.2 hr']

theorem paginate_slice (l : List α) (p lim : Nat) (hp : 1 ≤ p) :
    (l.drop ((p - 1) * lim)).take lim = (l.take (p * lim)).drop ((p - 1) * lim) := by
  rw [List.take_drop]
  congr 1
  obtain ⟨q, rfl⟩ : ∃ q, p = q + 1 := ⟨p - 1, by omega⟩
  simp [Nat.succ_mul]

theorem paginated_of_impl (rows : List α) (key : α → Int) (p lim : Nat)
    (hp : 1 ≤ p) :
    PaginatedCorrectly rows key
      (((sortByKeyDesc key rows).drop ((p - 1) * lim)).take lim,
       (sortByKeyDesc key rows).length) p lim :=
  ⟨paginate_slice _ p lim hp, sortByKeyDesc_length key rows,
   sortByKeyDesc_perm key rows, sortByKeyDesc_sorted key rows⟩

/-! ## C5: working-hours computation -/

/-- C5: for `check_out ≥ check_in`, `calculateWorkingHours` returns
`"H hrs M mins"` with `H` the millisecond difference integer-divided by
3600000 and `M` the remainder integer-divided by 60000; at
`check_in = 09:00`, `check_out = 17:30` of one day it yields
`"8 hrs 30 mins"`. -/
theorem c5_working_hours (checkIn checkOut : Int) (h : checkIn ≤ checkOut) :
    calculateWorkingHours checkIn checkOut =
      toString ((checkOut - checkIn).toNat / 3600000) ++ " hrs " ++
      toString (((checkOut - checkIn).toNat % 3600000) / 60000) ++ " mins" ∧
    calculateWorkingHours (9 * 3600000) (17 * 3600000 + 30 * 60000) =
      "8 hrs 30 mins" := by
  constructor
  · unfold calculateWorkingHours
    dsimp only
    have hd : (0 : Int) ≤ checkOut - checkIn := by omega
    obtain ⟨n, hn⟩ : ∃ n : Nat, checkOut - checkIn = (n : Int) :=
      ⟨(checkOut - checkIn).toNat, (Int.toNat_of_nonneg hd).symm⟩
    rw [hn]
    rw [show ((1000 * 60 * 60 : Int)) = ((3600000 : Nat) : Int) from rfl,
      show ((1000 * 60 : Int)) = ((60000 : Nat) : Int) from rfl,
      ← Int.ofNat_fdiv, ← Int.ofNat_tmod, ← Int.ofNat_fdiv]
    simp only [Int.toNat_natCast]
    rfl
  · decide

/-- Witness for C5 at the example timestamps. -/
theorem c5_working_hours_witness :
    ((9 * 3600000 : Int) ≤ 17 * 3600000 + 30 * 60000) ∧
    calculateWorkingHours (9 * 3600000) (17 * 3600000 + 30 * 60000) =
      toString (((17 * 3600000 + 30 * 60000 : Int) - 9 * 3600000).toNat / 3600000) ++
        " hrs " ++
      toString ((((17 * 3600000 + 30 * 60000 : Int) - 9 * 3600000).toNat % 3600000) /
        60000) ++ " mins" :=
  ⟨by decide, (c5_working_hours (9 * 3600000) (17 * 3600000 + 30 * 60000) (by decide)).1⟩

/-! ## C3: sale totals -/

theorem foldl_createSaleItem_sales (now : Int) (saleId : Nat) :
    ∀ (items : List ProductItem) (st : Store),
      (items.foldl (fun st item => (memCreateSaleItem st now
        { sale_id := saleId, product_id := item.productId,
          quantity := item.quantity, unit_price := item.price }).2) st).sales
        = st.sales := by
  intro items
  induction items with
  | nil => intro st; rfl
  | cons i is ih =>
    intro st
    rw [List.foldl_cons, ih]
    rfl

/-- C3: the persisted sale of `POST /api/sales` carries
`tax_amount = subtotal × 0.11`, `discount_amount = 0` and
`total_amount = subtotal + tax − discount` where `subtotal` is
`Σ unit_price × quantity` over the submitted items; for the items
`[{price: 100, qty: 2}, {price: 50, qty: 1}]` the subtotal is 250, the
tax 27.5 and the total 277.5. -/
theorem c3_sale_totals :
    (∀ (s : Store) (userId : Nat) (now : Int) (saleDate : String)
       (saleDateMs : Int) (customerName : String)
       (productItems : List ProductItem) (paymentMethod : String)
       (notes : Option String) (nanoidOut dateStr nanoidOut2 : String),
      (postSalesHandler s userId now saleDate saleDateMs customerName
          productItems paymentMethod notes nanoidOut dateStr nanoidOut2).1.tax_amount
          = saleSubtotal productItems * (11 / 100) ∧
      (postSalesHandler s userId now saleDate saleDateMs customerName
          productItems paymentMethod notes nanoidOut dateStr nanoidOut2).1.discount_amount
          = 0 ∧
      (postSalesHandler s userId now saleDate saleDateMs customerName
          productItems paymentMethod notes nanoidOut dateStr nanoidOut2).1.total_amount
          = saleSubtotal productItems + saleSubtotal productItems * (11 / 100) - 0 ∧
      (postSalesHandler s userId now saleDate saleDateMs customerName
          productItems paymentMethod notes nanoidOut dateStr nanoidOut2).2.sales
          = s.sales ++ [(postSalesHandler s userId now saleDate saleDateMs customerName
              productItems paymentMethod notes nanoidOut dateStr nanoidOut2).1]) ∧
    saleSubtotal [⟨1, 2, 100⟩, ⟨2, 1, 50⟩] = 250 ∧
    saleSubtotal [⟨1, 2, 100⟩, ⟨2, 1, 50⟩] * (11 / 100) = 27.5 ∧
    saleSubtotal [⟨1, 2, 100⟩, ⟨2, 1, 50⟩] +
      saleSubtotal [⟨1, 2, 100⟩, ⟨2, 1, 50⟩] * (11 / 100) - 0 = 277.5 := by
  refine ⟨fun s userId now saleDate saleDateMs customerName productItems
    paymentMethod notes nanoidOut dateStr nanoidOut2 =>
      ⟨rfl, rfl, rfl, ?_⟩, ?_, ?_, ?_⟩
  · unfold postSalesHandler
    dsimp only
    rw [foldl_createSaleItem_sales]
    rfl
  all_goals norm_num [saleSubtotal]

/-! ## C9: dashboard hardcoded fallback -/

/-- C9: the number the dashboard-stats handler formats is the hardcoded
45750000 exactly when the day's sales total is 0 (in particular when no
sale of the day exists), and the actual total otherwise. -/
theorem c9_dashboard_fallback :
    (∀ (s : Store) (now : Int),
      ((memGetDailySalesByDate s now).1 = 0 →
        dashboardStatsTotalSales s now = 45750000) ∧
      ((memGetDailySalesByDate s now).1 ≠ 0 →
        dashboardStatsTotalSales s now = (memGetDailySalesByDate s now).1)) ∧
    (∀ (s : Store) (now : Int),
      (∀ sl ∈ s.sales, isSaleOfDay now sl = false) →
      (memGetDailySalesByDate s now).1 = 0 ∧
      dashboardStatsTotalSales s now = 45750000) := by
  have hzero : ∀ (s : Store) (now : Int),
      (∀ sl ∈ s.sales, isSaleOfDay now sl = false) →
      (memGetDailySalesByDate s now).1 = 0 := by
    intro s now hnone
    unfold memGetDailySalesByDate
    have : s.sales.filter (isSaleOfDay now) = [] :=
      List.filter_eq_nil_iff.mpr (by simpa using hnone)
    simp [this]
  constructor
  · intro s now
    constructor
    · intro h
      unfold dashboardStatsTotalSales
      simp [h]
    · intro h
      unfold dashboardStatsTotalSales
      simp [h]
  · intro s now hnone
    refine ⟨hzero s now hnone, ?_⟩
    unfold dashboardStatsTotalSales
    simp [hzero s now hnone]

/-- Witness for C9 on a store with no sales. -/
theorem c9_dashboard_fallback_witness :
    (memGetDailySalesByDate emptyStore 0).1 = 0 ∧
    dashboardStatsTotalSales emptyStore 0 = 45750000 :=
  c9_dashboard_fallback.2 emptyStore 0 (by decide)

/-! ## C2: pagination -/

/-- C2: for every user, page `p ≥ 1` and limit, the three paginated list
operations return the slice `sorted[(p-1)*l : min(N, p*l)]` of the user's
records sorted descending by their primary timestamp (`check_in` for
attendance, `created_at` for sales and work reports) together with
`totalCount = N`, the number of the user's records. -/
theorem c2_pagination (s : Store) (u p lim : Nat) (hp : 1 ≤ p) :
    PaginatedCorrectly (s.attendance.filter (fun r => r.user_id == u))
      (fun r => r.check_in) (memGetAttendanceByUserId s u p lim) p lim ∧
    PaginatedCorrectly (s.sales.filter (fun sl => sl.user_id == u))
      (fun sl => sl.created_at) (memGetSalesByUserId s u p lim) p lim ∧
    PaginatedCorrectly (s.workReports.filter (fun w => w.user_id == u))
      (fun w => w.created_at) (memGetWorkReportsByUserId s u p lim) p lim :=
  ⟨paginated_of_impl _ _ p lim hp, paginated_of_impl _ _ p lim hp,
   paginated_of_impl _ _ p lim hp⟩

/-- Witness for C2 on the sample store. -/
theorem c2_pagination_witness :
    1 ≤ 1 ∧
    PaginatedCorrectly (sampleStore.attendance.filter (fun r => r.user_id == 1))
      (fun r => r.check_in) (memGetAttendanceByUserId sampleStore 1 1 2) 1 2 :=
  ⟨by decide, (c2_pagination sampleStore 1 1 2 (by decide)).1⟩

/-! ## C4: attendance check-in/check-out rules -/

theorem checkin_conflict_eq {s : Store} {userId : Nat} {now : Int}
    {note : Option String} {r : Attendance}
    (htoday : memGetTodayAttendanceByUserId s userId now = some r) :
    postAttendanceHandler s userId now "checkin" note =
      (.badRequest "Already checked in today", s) := by
  unfold postAttendanceHandler
  rw [if_pos (by decide), htoday]

theorem checkin_success_eq {s : Store} {userId : Nat} {now : Int}
    {note : Option String}
    (htoday : memGetTodayAttendanceByUserId s userId now = none) :
    postAttendanceHandler s userId now "checkin" note =
      (.checkedIn s.attendanceIdCounter now "Check-in successful",
       { s with
          attendance := s.attendance ++
            [{ id := s.attendanceIdCounter, user_id := userId, check_in := now,
               check_out := none, note := jsStringOrNull note,
               location := "Office - Jakarta Headquarters", created_at := now }],
          attendanceIdCounter := s.attendanceIdCounter + 1 }) := by
  unfold postAttendanceHandler
  rw [if_pos (by decide), htoday]
  rfl

theorem checkout_nocheckin_eq {s : Store} {userId : Nat} {now : Int}
    {note : Option String}
    (htoday : memGetTodayAttendanceByUserId s userId now = none) :
    postAttendanceHandler s userId now "checkout" note =
      (.badRequest "No check-in record found for today", s) := by
  unfold postAttendanceHandler
  rw [if_neg (by decide), if_pos (by decide), htoday]

theorem checkout_already_eq {s : Store} {userId : Nat} {now : Int}
    {note : Option String} {r : Attendance}
    (htoday : memGetTodayAttendanceByUserId s userId now = some r)
    (hco : r.check_out.isSome = true) :
    postAttendanceHandler s userId now "checkout" note =
      (.badRequest "Already checked out today", s) := by
  unfold postAttendanceHandler
  rw [if_neg (by decide), if_pos (by decide), htoday]
  simp only [hco, if_pos]

theorem checkout_success_eq {s : Store} {userId : Nat} {now : Int}
    {note : Option String} {r : Attendance}
    (htoday : memGetTodayAttendanceByUserId s userId now = some r)
    (hco : r.check_out = none)
    (hnd : (s.attendance.map (fun a => a.id)).Nodup) :
    postAttendanceHandler s userId now "checkout" note =
      (.checkedOut r.id now (calculateWorkingHours r.check_in now)
         "Check-out successful",
       { s with attendance := s.attendance.map (checkoutMapFn now note r) }) := by
  have hmem : r ∈ s.attendance := List.mem_of_find?_eq_some htoday
  have hfind : s.attendance.find? (fun a => a.id == r.id) = some r :=
    find?_attendance_id_of_nodup hnd hmem
  unfold postAttendanceHandler
  rw [if_neg (by decide), if_pos (by decide), htoday]
  simp only [hco, Option.isSome_none, Bool.false_eq_true, if_false]
  unfold memUpdateAttendance
  rw [hfind]
  rfl

theorem checkout_some_is_checkedOut {s : Store} {userId : Nat} {now : Int}
    {note : Option String} {r : Attendance}
    (htoday : memGetTodayAttendanceByUserId s userId now = some r)
    (hco : r.check_out.isSome = false) :
    ∃ (u : Attendance) (s1 : Store),
      postAttendanceHandler s userId now "checkout" note =
      (.checkedOut u.id (u.check_out.getD 0)
        (calculateWorkingHours u.check_in (u.check_out.getD 0))
        "Check-out successful", s1) := by
  have hmem : r ∈ s.attendance := List.mem_of_find?_eq_some htoday
  have hne : s.attendance.find? (fun a => a.id == r.id) ≠ none := by
    intro hnone
    have hx := List.find?_eq_none.mp hnone r hmem
    simp at hx
  obtain ⟨a, hfind⟩ := Option.ne_none_iff_exists'.mp hne
  unfold postAttendanceHandler
  rw [if_neg (by decide), if_pos (by decide), htoday]
  simp only [hco, Bool.false_eq_true, if_false]
  unfold memUpdateAttendance
  rw [hfind]
  exact ⟨_, _, rfl⟩

/-- C4: the check-in conflict (400 "Already checked in today") happens iff
a today-record exists, otherwise a record with `check_in = now` is
created; check-out fails (400) without a today-record or when already
checked out, otherwise it sets `check_out = now` and appends the provided
note with `"; "`; every failure leaves the store unchanged. -/
theorem c4_attendance_rules (s : Store) (userId : Nat) (now : Int)
    (note : Option String) : CheckinCheckoutSpec s userId now note := by
  unfold CheckinCheckoutSpec
  refine ⟨?_, fun h => checkin_success_eq h, ?_,
    fun r hr hco => checkout_already_eq hr hco,
    fun r hr hco hnd => checkout_success_eq hr hco hnd⟩
  · constructor
    · intro h
      cases htoday : memGetTodayAttendanceByUserId s userId now with
      | some r => simp
      | none =>
        rw [checkin_success_eq htoday] at h
        simp at h
    · intro h
      obtain ⟨r, hr⟩ := Option.isSome_iff_exists.mp h
      exact checkin_conflict_eq hr
  · constructor
    · intro h
      cases htoday : memGetTodayAttendanceByUserId s userId now with
      | none => rfl
      | some r =>
        exfalso
        cases hco : r.check_out.isSome with
        | true =>
          rw [checkout_already_eq htoday hco] at h
          simp at h
        | false =>
          obtain ⟨u, s1, heq⟩ := checkout_some_is_checkedOut htoday hco
          rw [heq] at h
          simp at h
    · intro h
      exact checkout_nocheckin_eq h

/-- Witness for C4 on the sample store. -/
theorem c4_attendance_rules_witness :
    CheckinCheckoutSpec sampleStore 1 100 (some "bye") :=
  c4_attendance_rules sampleStore 1 100 (some "bye")

/-! ## C10: frame effect of a successful check-out -/

/-- C10: a successful check-out modifies only `check_out` and `note` of
the user's today-record; its `id`, `user_id`, `check_in`, `location`,
`created_at`, every other attendance row, every other table and every
counter are unchanged. -/
theorem c10_checkout_frame (s : Store) (userId : Nat) (now : Int)
    (note : Option String) (r : Attendance)
    (hr : memGetTodayAttendanceByUserId s userId now = some r)
    (hco : r.check_out = none)
    (hnd : (s.attendance.map (fun a => a.id)).Nodup) :
    CheckoutFrameSpec s userId now note r := by
  unfold CheckoutFrameSpec
  rw [checkout_success_eq hr hco hnd]
  refine ⟨⟨rfl, rfl, rfl, rfl, rfl, rfl, rfl, rfl, rfl, rfl, rfl, rfl, rfl, rfl⟩, ?_⟩
  intro a
  unfold checkoutMapFn
  by_cases h : a.id = r.id <;> simp [h]

/-- Witness for C10 on the sample store (today-record `sAtt2`). -/
theorem c10_checkout_frame_witness :
    CheckoutFrameSpec sampleStore 1 100 (some "bye") sAtt2 :=
  c10_checkout_frame sampleStore 1 100 (some "bye") sAtt2
    (by decide) (by decide) (by decide)

/-! ## C7: partial updates -/

theorem map_patch_att_id {s : Store} {id : Nat} {dA : AttendancePatch}
    (hfind : s.attendance.find? (fun a => a.id == id) = none) :
    s.attendance.map (fun a => if a.id == id then applyAttendancePatch a dA else a)
      = s.attendance := by
  have hall := List.find?_eq_none.mp hfind
  calc s.attendance.map (fun a => if a.id == id then applyAttendancePatch a dA else a)
      = s.attendance.map (fun a => a) :=
        List.map_congr_left (fun a ha => by simp [by simpa using hall a ha])
    _ = s.attendance := List.map_id' s.attendance

theorem map_patch_wr_id {s : Store} {id : Nat} {dW : WorkReportPatch}
    (hfind : s.workReports.find? (fun x => x.id == id) = none) :
    s.workReports.map (fun x => if x.id == id then applyWorkReportPatch x dW else x)
      = s.workReports := by
  have hall := List.find?_eq_none.mp hfind
  calc s.workReports.map (fun x => if x.id == id then applyWorkReportPatch x dW else x)
      = s.workReports.map (fun x => x) :=
        List.map_congr_left (fun x hx => by simp [by simpa using hall x hx])
    _ = s.workReports := List.map_id' s.workReports

theorem supaUpdateAttendance_fk_ok {s : Store} {id : Nat} {dA : AttendancePatch}
    (hPA : ∀ v, dA.user_id = some v → ∃ u ∈ s.users, u.id = v) :
    supaUpdateAttendance s id dA =
      (.ok ((s.attendance.filter (fun r => r.id == id)).map
          (fun r => applyAttendancePatch r dA)).head?,
       { s with attendance :=
          s.attendance.map (fun a => if a.id == id then applyAttendancePatch a dA else a) }) := by
  unfold supaUpdateAttendance
  dsimp only
  cases hdu : dA.user_id with
  | none => rfl
  | some v =>
    obtain ⟨u, hu, huid⟩ := hPA v hdu
    have hany : s.users.any (fun u => u.id == v) = true :=
      List.any_eq_true.mpr ⟨u, hu, by simp [huid]⟩
    simp only [hany, Bool.not_true, Bool.and_false, Bool.false_eq_true, if_false]

theorem supaUpdateAttendance_miss {s : Store} {id : Nat} {dA : AttendancePatch}
    (hfind : s.attendance.find? (fun r => r.id == id) = none) :
    supaUpdateAttendance s id dA = (.ok none, s) := by
  have hnil : s.attendance.filter (fun r => r.id == id) = [] := by
    rw [List.filter_eq_nil_iff]
    exact fun a ha => by simpa using List.find?_eq_none.mp hfind a ha
  unfold supaUpdateAttendance
  dsimp only
  rw [hnil, map_patch_att_id hfind]
  cases dA.user_id with
  | none => rfl
  | some v => simp

theorem supaUpdateAttendance_fk_err {s : Store} {id : Nat} {dA : AttendancePatch}
    {v : Nat} (hdu : dA.user_id = some v)
    (hany : (s.attendance.filter (fun a => a.id == id)).any
      (fun a => !(a.user_id == v)) = true)
    (hnone : s.users.any (fun u => u.id == v) = false) :
    supaUpdateAttendance s id dA = (.error "violates foreign key constraint", s) := by
  unfold supaUpdateAttendance
  dsimp only
  rw [hdu]
  simp only [hany, hnone, Bool.not_false, Bool.and_true, if_true]

theorem supaUpdateWorkReport_fk_ok {s : Store} {id : Nat} {dW : WorkReportPatch}
    (hPW : ∀ v, dW.user_id = some v → ∃ u ∈ s.users, u.id = v) :
    supaUpdateWorkReport s id dW =
      (.ok ((s.workReports.filter (fun w => w.id == id)).map
          (fun w => applyWorkReportPatch w dW)).head?,
       { s with workReports :=
          s.workReports.map (fun x => if x.id == id then applyWorkReportPatch x dW else x) }) := by
  unfold supaUpdateWorkReport
  dsimp only
  cases hdu : dW.user_id with
  | none => rfl
  | some v =>
    obtain ⟨u, hu, huid⟩ := hPW v hdu
    have hany : s.users.any (fun u => u.id == v) = true :=
      List.any_eq_true.mpr ⟨u, hu, by simp [huid]⟩
    simp only [hany, Bool.not_true, Bool.and_false, Bool.false_eq_true, if_false]

theorem supaUpdateWorkReport_miss {s : Store} {id : Nat} {dW : WorkReportPatch}
    (hfind : s.workReports.find? (fun w => w.id == id) = none) :
    supaUpdateWorkReport s id dW = (.ok none, s) := by
  have hnil : s.workReports.filter (fun w => w.id == id) = [] := by
    rw [List.filter_eq_nil_iff]
    exact fun w hw => by simpa using List.find?_eq_none.mp hfind w hw
  unfold supaUpdateWorkReport
  dsimp only
  rw [hnil, map_patch_wr_id hfind]
  cases dW.user_id with
  | none => rfl
  | some v => simp

theorem supaUpdateWorkReport_fk_err {s : Store} {id : Nat} {dW : WorkReportPatch}
    {v : Nat} (hdu : dW.user_id = some v)
    (hany : (s.workReports.filter (fun x => x.id == id)).any
      (fun x => !(x.user_id == v)) = true)
    (hnone : s.users.any (fun u => u.id == v) = false) :
    supaUpdateWorkReport s id dW = (.error "violates foreign key constraint", s) := by
  unfold supaUpdateWorkReport
  dsimp only
  rw [hdu]
  simp only [hany, hnone, Bool.not_false, Bool.and_true, if_true]

/-- C7 (amended): `MemStorage` returns the merged entity or raises
not-found; `SupabaseStorage` returns the merged entity when the id exists
and the patch keeps `user_id` valid, returns no row and no error on a
missing id, and fails on the foreign key — store unchanged — when an
existing row's `user_id` is re-pointed at a missing user. -/
theorem c7_update_behavior (s : Store) (id : Nat) (dA : AttendancePatch)
    (dW : WorkReportPatch) : C7UpdateSpec s id dA dW := by
  unfold C7UpdateSpec
  refine ⟨?_, ?_, ?_, ?_, ?_, ?_⟩
  · intro r hfind
    refine ⟨?_, ?_⟩
    · unfold memUpdateAttendance
      rw [hfind]
    · intro hPA
      rw [supaUpdateAttendance_fk_ok hPA]
      rw [List.head?_map, head?_filter_eq_find?, hfind]
      rfl
  · intro hfind
    exact ⟨by unfold memUpdateAttendance; rw [hfind],
           supaUpdateAttendance_miss hfind⟩
  · intro v hdu hany hnone
    exact supaUpdateAttendance_fk_err hdu hany hnone
  · intro w hfind
    refine ⟨?_, ?_⟩
    · unfold memUpdateWorkReport
      rw [hfind]
    · intro hPW
      rw [supaUpdateWorkReport_fk_ok hPW]
      rw [List.head?_map, head?_filter_eq_find?, hfind]
      rfl
  · intro hfind
    exact ⟨by unfold memUpdateWorkReport; rw [hfind],
           supaUpdateWorkReport_miss hfind⟩
  · intro v hdu hany hnone
    exact supaUpdateWorkReport_fk_err hdu hany hnone

/-- Counterexample to C7 as stated: on the empty store (id 1 absent)
`MemStorage`'s updates fail with not-found, but `SupabaseStorage`'s
return no row (`.ok none`) without any error; and on an existing id a
patch re-pointing `user_id` at the missing user 99 succeeds in
`MemStorage` but fails in `SupabaseStorage` on the foreign key instead of
returning the merged entity. -/
theorem c7_update_behavior_counterexample :
    memUpdateAttendance emptyStore 1 {} =
      (.error "Attendance record with id 1 not found", emptyStore) ∧
    supaUpdateAttendance emptyStore 1 {} = (.ok none, emptyStore) ∧
    memUpdateWorkReport emptyStore 1 {} =
      (.error "Work report with id 1 not found", emptyStore) ∧
    supaUpdateWorkReport emptyStore 1 {} = (.ok none, emptyStore) ∧
    (memUpdateAttendance sampleStore 1 danglingPatch).1.isOk = true ∧
    supaUpdateAttendance sampleStore 1 danglingPatch =
      (.error "violates foreign key constraint", sampleStore) ∧
    (memUpdateWorkReport sampleStore 1 danglingWrPatch).1.isOk = true ∧
    supaUpdateWorkReport sampleStore 1 danglingWrPatch =
      (.error "violates foreign key constraint", sampleStore) := by
  decide

/-- Witness for C7 on the sample store. -/
theorem c7_update_behavior_witness : C7UpdateSpec sampleStore 1 {} {} :=
  c7_update_behavior sampleStore 1 {} {}

/-! ## C1: backend equivalence -/

theorem mem_supa_att_page (s : Store) (u p lim : Nat) :
    memGetAttendanceByUserId s u p lim = supaGetAttendanceByUserId s u p lim := by
  unfold memGetAttendanceByUserId supaGetAttendanceByUserId
  dsimp only
  simp only [Prod.mk.injEq]
  exact ⟨trivial, sortByKeyDesc_length _ _⟩

theorem mem_supa_sales_page (s : Store) (u p lim : Nat) :
    memGetSalesByUserId s u p lim = supaGetSalesByUserId s u p lim := by
  unfold memGetSalesByUserId supaGetSalesByUserId
  dsimp only
  simp only [Prod.mk.injEq]
  exact ⟨trivial, sortByKeyDesc_length _ _⟩

theorem mem_supa_wr_page (s : Store) (u p lim : Nat) :
    memGetWorkReportsByUserId s u p lim = supaGetWorkReportsByUserId s u p lim := by
  unfold memGetWorkReportsByUserId supaGetWorkReportsByUserId
  dsimp only
  simp only [Prod.mk.injEq]
  exact ⟨trivial, sortByKeyDesc_length _ _⟩

theorem supaCreateUser_fresh {s : Store} {now : Int} {dU : InsertUser}
    (hU : ∀ u ∈ s.users, u.username ≠ dU.username ∧ u.email ≠ dU.email) :
    supaCreateUser s now dU = .ok (memCreateUser s now dU) := by
  unfold supaCreateUser memCreateUser
  have hfalse : s.users.any
      (fun u => u.username == dU.username || u.email == dU.email) = false := by
    rw [List.any_eq_false]
    intro u hu
    simp [(hU u hu).1, (hU u hu).2]
  simp only [hfalse, Bool.false_eq_true, if_false]

theorem supaCreateAttendance_fk {s : Store} {now : Int} {dA : InsertAttendance}
    (hFA : ∃ u ∈ s.users, u.id = dA.user_id) :
    supaCreateAttendance s now dA = .ok (memCreateAttendance s now dA) := by
  obtain ⟨u, hu, huid⟩ := hFA
  have hany : s.users.any (fun u => u.id == dA.user_id) = true :=
    List.any_eq_true.mpr ⟨u, hu, by simp [huid]⟩
  unfold supaCreateAttendance memCreateAttendance
  simp only [hany, Bool.not_true, Bool.false_eq_true, if_false]

theorem supaCreateWorkReport_fk {s : Store} {now : Int} {dW : InsertWorkReport}
    (hFW : ∃ u ∈ s.users, u.id = dW.user_id) :
    supaCreateWorkReport s now dW = .ok (memCreateWorkReport s now dW) := by
  obtain ⟨u, hu, huid⟩ := hFW
  have hany : s.users.any (fun u => u.id == dW.user_id) = true :=
    List.any_eq_true.mpr ⟨u, hu, by simp [huid]⟩
  unfold supaCreateWorkReport memCreateWorkReport
  simp only [hany, Bool.not_true, Bool.false_eq_true, if_false]

theorem supaCreateSaleItem_fk {s : Store} {now : Int} {dSI : InsertSaleItem}
    (hSale : ∃ sl ∈ s.sales, sl.id = dSI.sale_id)
    (hProd : ∃ p ∈ s.products, p.id = dSI.product_id) :
    supaCreateSaleItem s now dSI = .ok (memCreateSaleItem s now dSI) := by
  obtain ⟨sl, hsl, hslid⟩ := hSale
  obtain ⟨p, hp, hpid⟩ := hProd
  have hany1 : s.sales.any (fun sl => sl.id == dSI.sale_id) = true :=
    List.any_eq_true.mpr ⟨sl, hsl, by simp [hslid]⟩
  have hany2 : s.products.any (fun p => p.id == dSI.product_id) = true :=
    List.any_eq_true.mpr ⟨p, hp, by simp [hpid]⟩
  unfold supaCreateSaleItem memCreateSaleItem
  simp only [hany1, hany2, Bool.not_true, Bool.or_self, Bool.false_eq_true,
    if_false]

theorem supaCreateSale_fresh {s : Store} {now : Int} {dateStr nanoidOut : String}
    {dS : InsertSale}
    (hS : ∀ sl ∈ s.sales, sl.invoice_number ≠ resolvedInvoice dateStr nanoidOut dS)
    (hFS : ∃ u ∈ s.users, u.id = dS.user_id) :
    supaCreateSale s now dateStr nanoidOut dS =
      .ok (memCreateSale s now dateStr nanoidOut dS) := by
  obtain ⟨u, hu, huid⟩ := hFS
  have hanyU : s.users.any (fun u => u.id == dS.user_id) = true :=
    List.any_eq_true.mpr ⟨u, hu, by simp [huid]⟩
  unfold supaCreateSale memCreateSale
  dsimp only
  have hfalse : s.sales.any
      (fun sl => sl.invoice_number == resolvedInvoice dateStr nanoidOut dS) = false := by
    rw [List.any_eq_false]
    intro sl hsl
    simpa using hS sl hsl
  simp only [hanyU, Bool.not_true, hfalse, Bool.false_eq_true, if_false]

theorem upd_att_agree {s : Store} {id : Nat} {dA : AttendancePatch}
    (hA : ∃ a ∈ s.attendance, a.id = id)
    (hPA : ∀ v, dA.user_id = some v → ∃ u ∈ s.users, u.id = v) :
    (supaUpdateAttendance s id dA).1 = .ok (memUpdateAttendance s id dA).1.toOption ∧
    (memUpdateAttendance s id dA).2 = (supaUpdateAttendance s id dA).2 := by
  obtain ⟨a, ha, haid⟩ := hA
  have hne : s.attendance.find? (fun r => r.id == id) ≠ none := by
    intro hnone
    have hx := List.find?_eq_none.mp hnone a ha
    simp [haid] at hx
  obtain ⟨r, hfind⟩ := Option.ne_none_iff_exists'.mp hne
  rw [supaUpdateAttendance_fk_ok hPA]
  unfold memUpdateAttendance
  rw [hfind, List.head?_map, head?_filter_eq_find?, hfind]
  exact ⟨rfl, rfl⟩

theorem upd_wr_agree {s : Store} {id : Nat} {dW : WorkReportPatch}
    (hW : ∃ w ∈ s.workReports, w.id = id)
    (hPW : ∀ v, dW.user_id = some v → ∃ u ∈ s.users, u.id = v) :
    (supaUpdateWorkReport s id dW).1 = .ok (memUpdateWorkReport s id dW).1.toOption ∧
    (memUpdateWorkReport s id dW).2 = (supaUpdateWorkReport s id dW).2 := by
  obtain ⟨a, ha, haid⟩ := hW
  have hne : s.workReports.find? (fun w => w.id == id) ≠ none := by
    intro hnone
    have hx := List.find?_eq_none.mp hnone a ha
    simp [haid] at hx
  obtain ⟨w, hfind⟩ := Option.ne_none_iff_exists'.mp hne
  rw [supaUpdateWorkReport_fk_ok hPW]
  unfold memUpdateWorkReport
  rw [hfind, List.head?_map, head?_filter_eq_find?, hfind]
  exact ⟨rfl, rfl⟩

/-- C1 (amended): the two backends agree on every operation, result and
successor state, except where the relational constraints or the missing-id
update behavior separate them: here stated under the hypotheses that the
created user's username/email and the created sale's invoice number are
fresh, that every foreign key of the inserts (`attendance.user_id`,
`sales.user_id`, `sale_items.sale_id`/`product_id`,
`work_reports.user_id`) references a stored row, that the updated
attendance/work-report ids exist, and that the update patches do not
re-point `user_id` at a missing user.  The counterexample shows each
carved-out case genuinely separates the backends. -/
theorem c1_backend_equivalence (s : Store) (now : Int)
    (dateStr nanoidOut : String) (idU : Nat) (username email : String)
    (dU : InsertUser) (idA uid page lim : Nat) (dA : InsertAttendance)
    (pA : AttendancePatch) (idS : Nat) (dS : InsertSale) (dSI : InsertSaleItem)
    (saleId idP catId idW : Nat) (dW : InsertWorkReport) (pW : WorkReportPatch)
    (hU : ∀ u ∈ s.users, u.username ≠ dU.username ∧ u.email ≠ dU.email)
    (hA : ∃ a ∈ s.attendance, a.id = idA)
    (hS : ∀ sl ∈ s.sales, sl.invoice_number ≠ resolvedInvoice dateStr nanoidOut dS)
    (hW : ∃ w ∈ s.workReports, w.id = idW)
    (hFA : ∃ u ∈ s.users, u.id = dA.user_id)
    (hFS : ∃ u ∈ s.users, u.id = dS.user_id)
    (hFSI : (∃ sl ∈ s.sales, sl.id = dSI.sale_id) ∧
      (∃ p ∈ s.products, p.id = dSI.product_id))
    (hFW : ∃ u ∈ s.users, u.id = dW.user_id)
    (hPA : ∀ v, pA.user_id = some v → ∃ u ∈ s.users, u.id = v)
    (hPW : ∀ v, pW.user_id = some v → ∃ u ∈ s.users, u.id = v) :
    BackendsAgree s now dateStr nanoidOut idU username email dU idA uid page lim
      dA pA idS dS dSI saleId idP catId idW dW pW := by
  unfold BackendsAgree
  refine ⟨(head?_filter_eq_find? _ _).symm, (head?_filter_eq_find? _ _).symm,
    (head?_filter_eq_find? _ _).symm, supaCreateUser_fresh hU,
    (head?_filter_eq_find? _ _).symm, mem_supa_att_page s uid page lim,
    (head?_filter_eq_find? _ _).symm, supaCreateAttendance_fk hFA,
    (upd_att_agree hA hPA).1, (upd_att_agree hA hPA).2,
    (head?_filter_eq_find? _ _).symm, mem_supa_sales_page s uid page lim,
    rfl, supaCreateSale_fresh hS hFS, supaCreateSaleItem_fk hFSI.1 hFSI.2, rfl,
    (head?_filter_eq_find? _ _).symm, rfl, rfl,
    (head?_filter_eq_find? _ _).symm, mem_supa_wr_page s uid page lim,
    supaCreateWorkReport_fk hFW, (upd_wr_agree hW hPW).1,
    (upd_wr_agree hW hPW).2⟩

/-- Counterexample to C1 as stated: `SupabaseStorage` rejects a duplicate
username (unique constraint) that `MemStorage` happily inserts, likewise a
duplicate invoice number; its constrained inserts reject dangling foreign
keys (`attendance.user_id`, `sales.user_id`, `sale_items.sale_id` /
`product_id`, `work_reports.user_id`) that `MemStorage` accepts; a patch
re-pointing `user_id` at a missing user fails only in `SupabaseStorage`;
and on a missing id `MemStorage.updateAttendance`/`updateWorkReport`
throw not-found while `SupabaseStorage` returns no row without failing. -/
theorem c1_backend_equivalence_counterexample :
    supaCreateUser sampleStore 0 dupUser ≠ .ok (memCreateUser sampleStore 0 dupUser) ∧
    supaCreateUser sampleStore 0 dupUser =
      .error "duplicate key value violates unique constraint" ∧
    (memCreateUser sampleStore 0 dupUser).1.username = "alice" ∧
    supaCreateSale sampleStore 0 "20240103" "abcdef" dupSale ≠
      .ok (memCreateSale sampleStore 0 "20240103" "abcdef" dupSale) ∧
    supaCreateAttendance emptyStore 0 danglingAtt =
      .error "violates foreign key constraint" ∧
    (memCreateAttendance emptyStore 0 danglingAtt).1.user_id = 9 ∧
    supaCreateSale emptyStore 0 "20240103" "abcdef" freshSale =
      .error "violates foreign key constraint" ∧
    (memCreateSale emptyStore 0 "20240103" "abcdef" freshSale).1.user_id = 1 ∧
    supaCreateSaleItem emptyStore 0 sInsertItem =
      .error "violates foreign key constraint" ∧
    (memCreateSaleItem emptyStore 0 sInsertItem).1.sale_id = 1 ∧
    supaCreateWorkReport emptyStore 0 sInsertWr =
      .error "violates foreign key constraint" ∧
    (memCreateWorkReport emptyStore 0 sInsertWr).1.user_id = 2 ∧
    (memUpdateAttendance sampleStore 1 danglingPatch).1.isOk = true ∧
    supaUpdateAttendance sampleStore 1 danglingPatch =
      (.error "violates foreign key constraint", sampleStore) ∧
    (memUpdateAttendance emptyStore 1 {}).1 =
      .error "Attendance record with id 1 not found" ∧
    supaUpdateAttendance emptyStore 1 {} = (.ok none, emptyStore) ∧
    (memUpdateWorkReport emptyStore 1 {}).1 =
      .error "Work report with id 1 not found" ∧
    supaUpdateWorkReport emptyStore 1 {} = (.ok none, emptyStore) := by
  decide

/-- Witness for C1 (amended) on the sample store extended with a product
row, so that every foreign-key hypothesis is satisfiable. -/
theorem c1_backend_equivalence_witness :
    BackendsAgree fkSampleStore 100 "20240102" "abc123" 1 "alice" "alice@x.co"
      freshUser 1 1 1 2 sInsertAtt {} 1 freshSale sInsertItem 1 1 1 1
      sInsertWr {} :=
  c1_backend_equivalence fkSampleStore 100 "20240102" "abc123" 1 "alice"
    "alice@x.co" freshUser 1 1 1 2 sInsertAtt {} 1 freshSale sInsertItem 1 1 1 1
    sInsertWr {} (by decide) (by decide) (by decide) (by decide) (by decide)
    (by decide) (by decide) (by decide)
    (fun v hv => by cases hv) (fun v hv => by cases hv)

/-! ## C6: invoice-number format -/

theorem upper_nanoid_char :
    ∀ c ∈ nanoidAlphabet, isUpperNanoidChar (Char.toUpper c) = true := by
  decide

theorem genInvoice_data (dateStr nanoidOut : String) :
    (genInvoice dateStr nanoidOut).data =
      'I' :: 'N' :: 'V' :: '-' ::
        (dateStr.data ++ '-' :: nanoidOut.data.map Char.toUpper) := by
  unfold genInvoice jsToUpperCase
  rw [String.data_append, String.data_append, String.data_append]
  simp [show ("INV-" : String).data = ['I', 'N', 'V', '-'] from rfl,
        show ("-" : String).data = ['-'] from rfl]

/-- Counterexample to C6 as stated: `"aaaaa_"` is a possible `nanoid(6)`
draw ('_' is in nanoid's url alphabet and survives `toUpperCase`), and the
invoice `MemStorage.createSale` generates from it fails the
`INV-\d{8}-[A-Z0-9]{6}` pattern. -/
theorem c6_invoice_format_counterexample :
    IsNanoidString "aaaaa_" 6 ∧
    (memCreateSale emptyStore 0 "20240115" "aaaaa_" noInvoiceSale).1.invoice_number
      = "INV-20240115-AAAAA_" ∧
    matchesInvoicePattern "INV-20240115-AAAAA_" = false := by
  decide

/-- C6 (amended): every generated invoice number is `INV-` + the date
string + `-` + the uppercased 6-character nanoid draw; it matches
`INV-\d{8}-[A-Z0-9_-]{6}` — the suffix class is nanoid's uppercased
alphabet, which also contains `_` and `-` — whenever the date string is 8
digits (true of the `toISOString` date used by both `createSale`s; the
`POST /api/sales` handler instead embeds the client's `saleDate` with
hyphens removed, which need not be 8 digits). -/
theorem c6_invoice_format (dateStr nanoidOut : String)
    (hlen : dateStr.length = 8)
    (hdig : ∀ c ∈ dateStr.data, isDigitChar c = true)
    (hn : IsNanoidString nanoidOut 6) :
    matchesInvoicePatternAmended (genInvoice dateStr nanoidOut) = true ∧
    (∀ (s : Store) (now : Int) (d : InsertSale), d.invoice_number = "" →
      (memCreateSale s now dateStr nanoidOut d).1.invoice_number =
        genInvoice dateStr nanoidOut) ∧
    (∀ (userId : Nat) (saleDate : String) (saleDateMs : Int)
       (customerName : String) (productItems : List ProductItem)
       (paymentMethod : String) (notes : Option String),
      (postSaleSaleData userId saleDate saleDateMs customerName productItems
          paymentMethod notes nanoidOut).invoice_number =
        genInvoice (stripHyphens saleDate) nanoidOut) := by
  obtain ⟨hnlen, hnmem⟩ := hn
  have hdlen : dateStr.data.length = 8 := hlen
  have hulen : (nanoidOut.data.map Char.toUpper).length = 6 := by
    rw [List.length_map]
    exact hnlen
  refine ⟨?_, ?_, ?_⟩
  · unfold matchesInvoicePatternAmended matchesInvoiceShape
    rw [genInvoice_data]
    dsimp only
    have h2 : (('I' :: 'N' :: 'V' :: '-' ::
        (dateStr.data ++ '-' :: nanoidOut.data.map Char.toUpper)).drop 4).take 8
        = dateStr.data := List.take_left' hdlen
    have h4 : ('I' :: 'N' :: 'V' :: '-' ::
        (dateStr.data ++ '-' :: nanoidOut.data.map Char.toUpper)).drop 12
        = '-' :: nanoidOut.data.map Char.toUpper := by
      show (dateStr.data ++ '-' :: nanoidOut.data.map Char.toUpper).drop 8
        = '-' :: nanoidOut.data.map Char.toUpper
      exact List.drop_left' hdlen
    have h5 : ('I' :: 'N' :: 'V' :: '-' ::
        (dateStr.data ++ '-' :: nanoidOut.data.map Char.toUpper)).drop 13
        = nanoidOut.data.map Char.toUpper := by
      show (dateStr.data ++ '-' :: nanoidOut.data.map Char.toUpper).drop 9
        = nanoidOut.data.map Char.toUpper
      rw [show (9 : Nat) = dateStr.data.length + 1 by rw [hdlen]]
      rw [List.drop_append]
      rfl
    have hall : (dateStr.data.all isDigitChar) = true := List.all_eq_true.mpr hdig
    have hsuf : ((nanoidOut.data.map Char.toUpper).all isUpperNanoidChar) = true := by
      rw [List.all_map, List.all_eq_true]
      intro c hc
      exact upper_nanoid_char c (hnmem c hc)
    rw [h2, h4, h5]
    simp [hall, hsuf, hdlen, hulen]
  · intro s now d hinv
    unfold memCreateSale
    dsimp only
    unfold resolvedInvoice
    rw [hinv]
    rfl
  · intro userId saleDate saleDateMs customerName productItems paymentMethod notes
    rfl

/-- Witness for C6 (amended) at a concrete date string and nanoid draw. -/
theorem c6_invoice_format_witness :
    ("20240115" : String).length = 8 ∧
    IsNanoidString "aaaaa_" 6 ∧
    matchesInvoicePatternAmended (genInvoice "20240115" "aaaaa_") = true :=
  ⟨by decide, by decide,
   (c6_invoice_format "20240115" "aaaaa_" (by decide) (by decide) (by decide)).1⟩

/-! ## C8: user roles -/

/-- Counterexample to C8 as stated: the role enum of `src/schema.ts` is
`["admin", "karyawan"]`, not `{admin, staff}`: a `karyawan` user passes
schema validation and is created by `POST /api/users`, yet its role is
neither `"admin"` nor `"staff"`; conversely `"staff"` is rejected. -/
theorem c8_roles_counterexample :
    insertUserSchemaCheck karyawanInsert = true ∧
    ¬(karyawanUser.role = "admin" ∨ karyawanUser.role = "staff") ∧
    insertUserSchemaCheck staffInsert = false ∧
    (postUsersHandler emptyStore 0 karyawanInsert).1 = .created karyawanUser := by
  decide

/-- C8 (amended): every user accepted by the creation path carries role
`"admin"` or `"karyawan"`, and so does every profile produced by
`validateSession` over a store whose users were accepted that way. -/
theorem c8_roles (d : InsertUser) (s : Store) (now : Int)
    (auth : Option (Option String)) :
    (insertUserSchemaCheck d = true → d.role = "admin" ∨ d.role = "karyawan") ∧
    (∀ (u : User) (s1 : Store), postUsersHandler s now d = (.created u, s1) →
      u.role = "admin" ∨ u.role = "karyawan") ∧
    ((∀ u ∈ s.users, u.role = "admin" ∨ u.role = "karyawan") →
      ∀ p, validateSession s auth = some p →
        p.role = "admin" ∨ p.role = "karyawan") := by
  have hcheck : insertUserSchemaCheck d = true →
      d.role = "admin" ∨ d.role = "karyawan" := by
    intro h
    unfold insertUserSchemaCheck at h
    rcases Bool.or_eq_true_iff.mp h with h1 | h1
    · exact Or.inl (by simpa using h1)
    · exact Or.inr (by simpa using h1)
  refine ⟨hcheck, ?_, ?_⟩
  · intro u s1 h
    unfold postUsersHandler at h
    cases hc : insertUserSchemaCheck d with
    | false => rw [hc] at h; simp at h
    | true =>
      rw [hc] at h
      simp only [Bool.not_true, Bool.false_eq_true, if_false] at h
      cases hmail : memGetUserByEmail s d.email with
      | some u0 => rw [hmail] at h; simp at h
      | none =>
        rw [hmail] at h
        unfold memCreateUser at h
        have h1 := congrArg Prod.fst h
        dsimp only at h1
        injection h1 with h1
        rw [← h1]
        exact hcheck hc
  · intro hall p hp
    cases auth with
    | none => simp [validateSession] at hp
    | some tokenEmail =>
      unfold validateSession at hp
      dsimp only at hp
      cases hfind : memGetUserByEmail s (tokenEmail.getD "") with
      | none => rw [hfind] at hp; simp at hp
      | some u =>
        rw [hfind] at hp
        have hmem : u ∈ s.users := List.mem_of_find?_eq_some hfind
        have hrole : p.role = u.role := by
          simp only [Option.some.injEq] at hp
          rw [← hp]
        rw [hrole]
        exact hall u hmem

/-- Witness for C8 (amended) at a concrete accepted user. -/
theorem c8_roles_witness :
    insertUserSchemaCheck freshUser = true ∧
    (freshUser.role = "admin" ∨ freshUser.role = "karyawan") :=
  ⟨by decide, (c8_roles freshUser emptyStore 0 none).1 (by decide)⟩

end PtGoDay
